import Mathlib

/-!
Shallow embedding of the mortgage-calculation core of the repository
(`lambda_functions/mortgage_payment/domain.py` and
`lambda_functions/mortgage_payment/service.py`).

Python `Decimal` arithmetic is modelled by exact rational arithmetic over `ℚ`:
the source computes intermediate values with `Decimal`'s arbitrary-precision
context and rounds monetary amounts to 2 decimal places (`ROUND_HALF_UP`)
exactly once, at `Money` construction; that rounding is modelled exactly.
`ValueError` exceptions are modelled by `Except String`.  Integer-valued
fields (`years`, `month`, `months_paid`, `max_months`) are modelled by `ℤ`.
-/

deriving instance DecidableEq for Except

namespace Mortgage

/-- `ROUND_HALF_UP` quantization to 2 decimal places, as performed by
`Money.__post_init__` in `domain.py`: halves round away from zero. -/
def roundHalfUp2 (q : ℚ) : ℚ :=
  if q < 0 then -(((⌊-q * 100 + 1 / 2⌋ : ℤ) : ℚ) / 100)
  else ((⌊q * 100 + 1 / 2⌋ : ℤ) : ℚ) / 100

/-- An amount is a whole number of cents (the form `Money.__post_init__`
always produces). -/
def Cents (q : ℚ) : Prop := (q * 100).den = 1

instance : DecidablePred Cents := fun q => by unfold Cents; infer_instance

/-- `Money` value object (`domain.py`): a decimal amount and a currency code. -/
structure Money where
  amount : ℚ
  currency : String
deriving DecidableEq, Repr

/-- `Money.__post_init__` (`domain.py` lines 18-25): rejects a negative raw
amount, then quantizes to 2 decimal places with `ROUND_HALF_UP`.  Note the
sign check happens on the raw amount, before quantization. -/
def Money.make (amount : ℚ) (currency : String) : Except String Money :=
  if amount < 0 then .error "Money amount cannot be negative"
  else .ok ⟨roundHalfUp2 amount, currency⟩

/-- `Money.__add__` (`domain.py`): currency-match check, then construction. -/
def Money.add (a b : Money) : Except String Money :=
  if a.currency = b.currency then Money.make (a.amount + b.amount) a.currency
  else .error "Cannot add different currencies"

/-- `Money.__sub__` (`domain.py`): currency-match check, then construction
(which fails when the difference is negative). -/
def Money.sub (a b : Money) : Except String Money :=
  if a.currency = b.currency then Money.make (a.amount - b.amount) a.currency
  else .error "Cannot subtract different currencies"

/-- `Money.__mul__` (`domain.py`): scaling by a decimal factor. -/
def Money.mul (a : Money) (factor : ℚ) : Except String Money :=
  Money.make (a.amount * factor) a.currency

/-- A `Money` value as produced by `Money.__post_init__`: non-negative and
quantized to whole cents. -/
def Money.Valid (m : Money) : Prop :=
  0 ≤ m.amount ∧ Cents m.amount

instance (m : Money) : Decidable m.Valid := by
  unfold Money.Valid Cents; infer_instance

/-- `InterestRate` value object (`domain.py`). -/
structure InterestRate where
  annual_percentage : ℚ
deriving DecidableEq, Repr

/-- `InterestRate.__post_init__` (`domain.py`): 0 ≤ rate ≤ 100. -/
def InterestRate.make (p : ℚ) : Except String InterestRate :=
  if p < 0 then .error "Interest rate cannot be negative"
  else if 100 < p then .error "Interest rate cannot exceed 100 percent"
  else .ok ⟨p⟩

/-- `InterestRate.monthly_rate` (`domain.py`): annual percentage to monthly
decimal rate. -/
def InterestRate.monthly_rate (r : InterestRate) : ℚ :=
  r.annual_percentage / 100 / 12

def InterestRate.Valid (r : InterestRate) : Prop :=
  0 ≤ r.annual_percentage ∧ r.annual_percentage ≤ 100

instance (r : InterestRate) : Decidable r.Valid := by
  unfold InterestRate.Valid; infer_instance

/-- `LoanTerm` value object (`domain.py`). -/
structure LoanTerm where
  years : ℤ
deriving DecidableEq, Repr

/-- `LoanTerm.__post_init__` (`domain.py`): 1 ≤ years ≤ 50. -/
def LoanTerm.make (y : ℤ) : Except String LoanTerm :=
  if y ≤ 0 then .error "Loan term must be positive"
  else if 50 < y then .error "Loan term cannot exceed 50 years"
  else .ok ⟨y⟩

/-- `LoanTerm.months` (`domain.py`): years to months. -/
def LoanTerm.months (t : LoanTerm) : ℤ := t.years * 12

def LoanTerm.Valid (t : LoanTerm) : Prop := 1 ≤ t.years ∧ t.years ≤ 50

instance (t : LoanTerm) : Decidable t.Valid := by
  unfold LoanTerm.Valid; infer_instance

/-- `MortgageRequest` entity (`domain.py`). -/
structure MortgageRequest where
  property_value : Money
  down_payment : Money
  loan_term : LoanTerm
  interest_rate : InterestRate
deriving DecidableEq, Repr

/-- `MortgageRequest.__post_init__` (`domain.py` lines 100-105). -/
def MortgageRequest.make (pv dp : Money) (lt : LoanTerm) (ir : InterestRate) :
    Except String MortgageRequest :=
  if pv.amount < dp.amount then .error "Down payment cannot exceed property value"
  else if pv.currency = dp.currency then .ok ⟨pv, dp, lt, ir⟩
  else .error "Property value and down payment must be in same currency"

/-- `MortgageRequest.loan_amount` (`domain.py`): recomputed on each access as
`property_value - down_payment`; `Money` subtraction can raise. -/
def MortgageRequest.loan_amount (req : MortgageRequest) : Except String Money :=
  req.property_value.sub req.down_payment

/-- `MortgageRequest.loan_to_value_ratio` (`domain.py`): LTV as a percentage,
0 when the property value is 0. -/
def MortgageRequest.loan_to_value_ratio (req : MortgageRequest) : Except String ℚ :=
  if req.property_value.amount = 0 then .ok 0
  else do
    let la ← req.loan_amount
    .ok (la.amount / req.property_value.amount * 100)

/-- A `MortgageRequest` as constructible through the domain constructors:
all components valid, down payment at most the property value, currencies
matching. -/
def MortgageRequest.Valid (req : MortgageRequest) : Prop :=
  req.property_value.Valid ∧ req.down_payment.Valid ∧ req.loan_term.Valid ∧
    req.interest_rate.Valid ∧
    req.down_payment.amount ≤ req.property_value.amount ∧
    req.property_value.currency = req.down_payment.currency

instance (req : MortgageRequest) : Decidable req.Valid := by
  unfold MortgageRequest.Valid; infer_instance

/-- `MonthlyPayment` entity (`domain.py`). -/
structure MonthlyPayment where
  total_payment : Money
  principal_amount : Money
  interest_amount : Money
  month_number : ℤ
  remaining_balance : Money
deriving DecidableEq, Repr

/-- `MonthlyPayment.__post_init__` (`domain.py` lines 133-142): the month
number must be positive and principal + interest must equal the total payment
within a 0.01 tolerance (the addition itself checks currencies). -/
def MonthlyPayment.make (t p i : Money) (m : ℤ) (rb : Money) :
    Except String MonthlyPayment :=
  if m ≤ 0 then .error "Month number must be positive"
  else do
    let calculated_total ← p.add i
    if 1 / 100 < |calculated_total.amount - t.amount| then
      .error "Principal plus Interest must equal Total Payment"
    else .ok ⟨t, p, i, m, rb⟩

/-- `MortgageCalculatorService.calculate_monthly_payment` (`service.py`
lines 26-69): fixed monthly payment by the standard annuity formula, with a
flat division when the monthly rate is zero.  The exponent `n` is the loan
term in months (positive for every constructible term; `toNat` realizes the
integer exponent). -/
def calculate_monthly_payment (req : MortgageRequest) : Except String Money := do
  let la ← req.loan_amount
  let principal := la.amount
  if principal ≤ 0 then .error "Loan amount must be positive"
  else
    let monthly_rate := req.interest_rate.monthly_rate
    let num_payments := req.loan_term.months
    let monthly_payment :=
      if monthly_rate = 0 then principal / (num_payments : ℚ)
      else
        let numerator := monthly_rate * (1 + monthly_rate) ^ num_payments.toNat
        let denominator := (1 + monthly_rate) ^ num_payments.toNat - 1
        principal * (numerator / denominator)
    Money.make monthly_payment la.currency

/-- `MortgageCalculatorService.calculate_total_interest` (`service.py`
lines 71-89): rounded monthly payment times the number of months, minus the
loan amount, wrapped as `Money` (which fails when that difference is
negative). -/
def calculate_total_interest (req : MortgageRequest) : Except String Money := do
  let monthly_payment ← calculate_monthly_payment req
  let la ← req.loan_amount
  let total_payments := monthly_payment.amount * ((req.loan_term.months : ℤ) : ℚ)
  let total_interest := total_payments - la.amount
  Money.make total_interest la.currency

/-- `AmortizationService._calculate_remaining_balance` (`service.py`
lines 197-231).  In the nonzero-rate branch the source also computes the
monthly payment (binding an otherwise-unused local), which raises when the
loan amount is not positive; that bind is kept. -/
def calculate_remaining_balance (req : MortgageRequest) (months_paid : ℤ) :
    Except String Money :=
  if months_paid ≤ 0 then req.loan_amount
  else if req.loan_term.months ≤ months_paid then do
    let la ← req.loan_amount
    Money.make 0 la.currency
  else do
    let la ← req.loan_amount
    let principal := la.amount
    let monthly_rate := req.interest_rate.monthly_rate
    let total_payments := req.loan_term.months
    let remaining ←
      if monthly_rate = 0 then
        pure (principal - principal / ((total_payments : ℤ) : ℚ) * ((months_paid : ℤ) : ℚ))
      else do
        let _monthly_payment ← calculate_monthly_payment req
        let numerator :=
          (1 + monthly_rate) ^ total_payments.toNat - (1 + monthly_rate) ^ months_paid.toNat
        let denominator := (1 + monthly_rate) ^ total_payments.toNat - 1
        pure (principal * (numerator / denominator))
    Money.make (max 0 remaining) la.currency

/-- `AmortizationService.calculate_monthly_breakdown` (`service.py`
lines 127-170): breakdown of one month's payment into interest, principal
and new remaining balance. -/
def calculate_monthly_breakdown (req : MortgageRequest) (month : ℤ) :
    Except String MonthlyPayment :=
  if month < 1 ∨ req.loan_term.months < month then
    .error "Month must be between 1 and the loan term months"
  else do
    let monthly_payment_amount ← calculate_monthly_payment req
    let remaining_balance ← calculate_remaining_balance req (month - 1)
    let monthly_rate := req.interest_rate.monthly_rate
    let la ← req.loan_amount
    let interest_amount ← Money.make (remaining_balance.amount * monthly_rate) la.currency
    let principal_amount ← monthly_payment_amount.sub interest_amount
    let new_remaining_balance ← remaining_balance.sub principal_amount
    MonthlyPayment.make monthly_payment_amount principal_amount interest_amount
      month new_remaining_balance

/-- The month indices `1, 2, ..., total` iterated by the schedule loop
`range(1, total_months + 1)` of `service.py` (empty when `total ≤ 0`). -/
def scheduleMonths (total : ℤ) : List ℤ :=
  (List.range total.toNat).map (fun (i : ℕ) => (i : ℤ) + 1)

/-- The `for month in range(...)` loop body of
`calculate_amortization_schedule`: each month's breakdown is computed in
order and appended; the first failure aborts the loop. -/
def scheduleLoop (req : MortgageRequest) : List ℤ → Except String (List MonthlyPayment)
  | [] => .ok []
  | m :: ms => do
    let monthly_payment ← calculate_monthly_breakdown req m
    let rest ← scheduleLoop req ms
    .ok (monthly_payment :: rest)

/-- The number of months the schedule iterates over, exactly as the source
computes `total_months`: the full loan term, shrunk by `min` only when a
truthy (nonzero) `max_months` is supplied. -/
def scheduleTotal (req : MortgageRequest) (max_months : Option ℤ) : ℤ :=
  match max_months with
  | some m => if m = 0 then req.loan_term.months else min req.loan_term.months m
  | none => req.loan_term.months

/-- `AmortizationService.calculate_amortization_schedule` (`service.py`
lines 172-195).  `max_months` is optional; the source guard `if max_months:`
is Python truthiness, so a supplied `0` leaves the full term in place. -/
def calculate_amortization_schedule (req : MortgageRequest)
    (max_months : Option ℤ) : Except String (List MonthlyPayment) :=
  scheduleLoop req (scheduleMonths (scheduleTotal req max_months))

/-- `MortgageValidationService.validate_mortgage_request` (`service.py`
lines 239-266): business-policy checks (minimum loan, maximum LTV, rate
sanity ceiling). -/
def validate_mortgage_request (req : MortgageRequest) : Except String Unit := do
  let la ← req.loan_amount
  let min_loan_amount ← Money.make 10000 la.currency
  if la.amount < min_loan_amount.amount then .error "Minimum loan amount is 10000"
  else do
    let ltv ← req.loan_to_value_ratio
    if 95 < ltv then .error "Loan-to-value ratio exceeds maximum"
    else if 20 < req.interest_rate.annual_percentage then
      .error "Interest rate seems unreasonably high"
    else .ok ()

/-! ### Basic facts about `Except` plumbing and the 2-decimal rounding -/

theorem bind_ok_eq {ε α β : Type} (a : α) (f : α → Except ε β) :
    (Except.ok a : Except ε α) >>= f = f a := rfl

theorem bind_error_eq {ε α β : Type} (e : ε) (f : α → Except ε β) :
    (Except.error e : Except ε α) >>= f = .error e := rfl

theorem pure_eq_ok {ε α : Type} (a : α) : (pure a : Except ε α) = .ok a := rfl

theorem bind_ok_inv {ε α β : Type} {x : Except ε α} {f : α → Except ε β} {b : β}
    (h : x >>= f = .ok b) : ∃ a, x = .ok a ∧ f a = .ok b := by
  cases x with
  | error e => exact absurd h (by rw [bind_error_eq]; intro hc; exact Except.noConfusion hc)
  | ok a => exact ⟨a, rfl, by rwa [bind_ok_eq] at h⟩

theorem cents_iff (q : ℚ) : Cents q ↔ ∃ k : ℤ, q = (k : ℚ) / 100 := by
  constructor
  · intro h
    refine ⟨(q * 100).num, ?_⟩
    have h2 : ((q * 100).num : ℚ) = q * 100 := (Rat.den_eq_one_iff _).mp h
    rw [h2]
    field_simp
  · rintro ⟨k, rfl⟩
    unfold Cents
    rw [div_mul_cancel₀ _ (by norm_num : (100 : ℚ) ≠ 0)]
    exact Rat.den_intCast k

theorem floor_half : ⌊(1 : ℚ) / 2⌋ = 0 := by
  rw [Int.floor_eq_zero_iff]
  constructor <;> norm_num

theorem roundHalfUp2_int_div (k : ℤ) : roundHalfUp2 ((k : ℚ) / 100) = (k : ℚ) / 100 := by
  unfold roundHalfUp2
  split
  · have h1 : -((k : ℚ) / 100) * 100 + 1 / 2 = ((-k : ℤ) : ℚ) + 1 / 2 := by push_cast; ring
    rw [h1, Int.floor_int_add, floor_half]
    push_cast
    ring
  · have h1 : (k : ℚ) / 100 * 100 + 1 / 2 = ((k : ℤ) : ℚ) + 1 / 2 := by ring
    rw [h1, Int.floor_int_add, floor_half]
    norm_num

theorem roundHalfUp2_eq_self {q : ℚ} (h : Cents q) : roundHalfUp2 q = q := by
  obtain ⟨k, rfl⟩ := (cents_iff q).mp h
  exact roundHalfUp2_int_div k

theorem cents_roundHalfUp2 (q : ℚ) : Cents (roundHalfUp2 q) := by
  unfold roundHalfUp2
  split
  · exact (cents_iff _).mpr ⟨-⌊-q * 100 + 1 / 2⌋, by push_cast; ring⟩
  · exact (cents_iff _).mpr ⟨⌊q * 100 + 1 / 2⌋, rfl⟩

theorem cents_sub {a b : ℚ} (ha : Cents a) (hb : Cents b) : Cents (a - b) := by
  obtain ⟨j, rfl⟩ := (cents_iff a).mp ha
  obtain ⟨k, rfl⟩ := (cents_iff b).mp hb
  exact (cents_iff _).mpr ⟨j - k, by push_cast; ring⟩

theorem cents_add {a b : ℚ} (ha : Cents a) (hb : Cents b) : Cents (a + b) := by
  obtain ⟨j, rfl⟩ := (cents_iff a).mp ha
  obtain ⟨k, rfl⟩ := (cents_iff b).mp hb
  exact (cents_iff _).mpr ⟨j + k, by push_cast; ring⟩

theorem roundHalfUp2_nonneg {q : ℚ} (h : 0 ≤ q) : 0 ≤ roundHalfUp2 q := by
  unfold roundHalfUp2
  rw [if_neg (not_lt.mpr h)]
  have h1 : (0 : ℤ) ≤ ⌊q * 100 + 1 / 2⌋ := Int.floor_nonneg.mpr (by linarith)
  have h2 : (0 : ℚ) ≤ (⌊q * 100 + 1 / 2⌋ : ℚ) := by exact_mod_cast h1
  linarith

theorem roundHalfUp2_le (q : ℚ) : roundHalfUp2 q ≤ q + 1 / 200 := by
  unfold roundHalfUp2
  split
  · have h1 := Int.sub_one_lt_floor (-q * 100 + 1 / 2)
    have h2 : (-q * 100 + 1 / 2 - 1 : ℚ) < (⌊-q * 100 + 1 / 2⌋ : ℚ) := by exact_mod_cast h1
    linarith
  · have h1 := Int.floor_le (q * 100 + 1 / 2)
    linarith

theorem roundHalfUp2_ge (q : ℚ) : q - 1 / 200 ≤ roundHalfUp2 q := by
  unfold roundHalfUp2
  split
  · have h1 := Int.floor_le (-q * 100 + 1 / 2)
    linarith
  · have h1 := Int.sub_one_lt_floor (q * 100 + 1 / 2)
    have h2 : (q * 100 + 1 / 2 - 1 : ℚ) < (⌊q * 100 + 1 / 2⌋ : ℚ) := by exact_mod_cast h1
    linarith

theorem roundHalfUp2_mono {x y : ℚ} (h : x ≤ y) : roundHalfUp2 x ≤ roundHalfUp2 y := by
  unfold roundHalfUp2
  split_ifs with hx hy hy
  · have h1 : ⌊-y * 100 + 1 / 2⌋ ≤ ⌊-x * 100 + 1 / 2⌋ := Int.floor_le_floor (by linarith)
    have h2 : ((⌊-y * 100 + 1 / 2⌋ : ℤ) : ℚ) ≤ ((⌊-x * 100 + 1 / 2⌋ : ℤ) : ℚ) := by
      exact_mod_cast h1
    linarith
  · have h1 : (0 : ℤ) ≤ ⌊-x * 100 + 1 / 2⌋ := Int.floor_nonneg.mpr (by linarith)
    have h2 : (0 : ℤ) ≤ ⌊y * 100 + 1 / 2⌋ := Int.floor_nonneg.mpr (by linarith)
    have h3 : (0 : ℚ) ≤ (⌊-x * 100 + 1 / 2⌋ : ℚ) := by exact_mod_cast h1
    have h4 : (0 : ℚ) ≤ (⌊y * 100 + 1 / 2⌋ : ℚ) := by exact_mod_cast h2
    linarith
  · exact absurd (lt_of_le_of_lt h hy) hx
  · have h1 : ⌊x * 100 + 1 / 2⌋ ≤ ⌊y * 100 + 1 / 2⌋ := Int.floor_le_floor (by linarith)
    have h2 : ((⌊x * 100 + 1 / 2⌋ : ℤ) : ℚ) ≤ ((⌊y * 100 + 1 / 2⌋ : ℤ) : ℚ) := by
      exact_mod_cast h1
    linarith

/-- Evaluation rule used to compute `roundHalfUp2` on concrete nonnegative
inputs. -/
theorem roundHalfUp2_eq_of {q : ℚ} (z : ℤ) (h0 : ¬q < 0) (h1 : (z : ℚ) ≤ q * 100 + 1 / 2)
    (h2 : q * 100 + 1 / 2 < z + 1) : roundHalfUp2 q = (z : ℚ) / 100 := by
  unfold roundHalfUp2
  rw [if_neg h0, Int.floor_eq_iff.mpr ⟨h1, by exact_mod_cast h2⟩]

/-! ### Closed-form values computed by the services

These mirror the arithmetic expressions of `service.py` as plain rational
functions, so that theorems can speak about the computed quantities. -/

/-- The loan amount as a rational: `property_value - down_payment`. -/
def loanAmountQ (req : MortgageRequest) : ℚ :=
  req.property_value.amount - req.down_payment.amount

/-- The pre-rounding monthly payment computed by
`calculate_monthly_payment`: flat division for a zero monthly rate,
otherwise the annuity formula `P * r(1+r)^n / ((1+r)^n - 1)`. -/
def monthlyPaymentValue (principal r : ℚ) (n : ℤ) : ℚ :=
  if r = 0 then principal / (n : ℚ)
  else principal * (r * (1 + r) ^ n.toNat / ((1 + r) ^ n.toNat - 1))

/-- The rounded monthly payment of a request. -/
def monthlyPaymentQ (req : MortgageRequest) : ℚ :=
  roundHalfUp2 (monthlyPaymentValue (loanAmountQ req) req.interest_rate.monthly_rate
    req.loan_term.months)

/-- The pre-rounding remaining balance computed by
`_calculate_remaining_balance` after `k` months, including the boundary
branches and the `max 0` clamp. -/
def remainingBalanceValue (P r : ℚ) (n k : ℤ) : ℚ :=
  if k ≤ 0 then P
  else if n ≤ k then 0
  else max 0 (if r = 0 then P - P / (n : ℚ) * (k : ℚ)
    else P * (((1 + r) ^ n.toNat - (1 + r) ^ k.toNat) / ((1 + r) ^ n.toNat - 1)))

/-- The rounded remaining balance of a request after `k` months. -/
def balanceQ (req : MortgageRequest) (k : ℤ) : ℚ :=
  roundHalfUp2 (remainingBalanceValue (loanAmountQ req) req.interest_rate.monthly_rate
    req.loan_term.months k)

/-- The loan-to-value percentage as computed by `loan_to_value_ratio`. -/
def ltvValue (req : MortgageRequest) : ℚ :=
  if req.property_value.amount = 0 then 0
  else loanAmountQ req / req.property_value.amount * 100

/-! ### Money construction and arithmetic -/

theorem Money.make_ok {q : ℚ} {c : String} (h : ¬q < 0) :
    Money.make q c = .ok ⟨roundHalfUp2 q, c⟩ := by
  unfold Money.make
  rw [if_neg h]

theorem Money.make_error {q : ℚ} {c : String} (h : q < 0) :
    Money.make q c = .error "Money amount cannot be negative" := by
  unfold Money.make
  rw [if_pos h]

theorem Money.make_ok_inv {q : ℚ} {c : String} {m : Money} (h : Money.make q c = .ok m) :
    0 ≤ q ∧ m = ⟨roundHalfUp2 q, c⟩ := by
  unfold Money.make at h
  split at h
  · exact Except.noConfusion h
  · rename_i hq
    injection h with h2
    exact ⟨not_lt.mp hq, h2.symm⟩

theorem Money.make_ok_valid {q : ℚ} {c : String} {m : Money} (h : Money.make q c = .ok m) :
    m.Valid := by
  obtain ⟨h0, rfl⟩ := Money.make_ok_inv h
  exact ⟨roundHalfUp2_nonneg h0, cents_roundHalfUp2 q⟩

theorem Money.sub_eq_make {a b : Money} (h : a.currency = b.currency) :
    a.sub b = Money.make (a.amount - b.amount) a.currency := by
  unfold Money.sub
  rw [if_pos h]

theorem Money.sub_ok {a b : Money} (h : a.currency = b.currency) (hle : b.amount ≤ a.amount)
    (hca : Cents a.amount) (hcb : Cents b.amount) :
    a.sub b = .ok ⟨a.amount - b.amount, a.currency⟩ := by
  rw [Money.sub_eq_make h, Money.make_ok (not_lt.mpr (by linarith))]
  rw [roundHalfUp2_eq_self (cents_sub hca hcb)]

theorem Money.sub_error {a b : Money} (h : a.currency = b.currency)
    (hlt : a.amount < b.amount) :
    a.sub b = .error "Money amount cannot be negative" := by
  rw [Money.sub_eq_make h, Money.make_error (by linarith)]

theorem Money.add_eq_make {a b : Money} (h : a.currency = b.currency) :
    a.add b = Money.make (a.amount + b.amount) a.currency := by
  unfold Money.add
  rw [if_pos h]

theorem Money.add_ok {a b : Money} (h : a.currency = b.currency) (ha : 0 ≤ a.amount)
    (hb : 0 ≤ b.amount) (hca : Cents a.amount) (hcb : Cents b.amount) :
    a.add b = .ok ⟨a.amount + b.amount, a.currency⟩ := by
  rw [Money.add_eq_make h, Money.make_ok (not_lt.mpr (by linarith))]
  rw [roundHalfUp2_eq_self (cents_add hca hcb)]

/-! ### Characterizations of the service computations -/

theorem loan_amount_ok {req : MortgageRequest} (h : req.Valid) :
    req.loan_amount = .ok ⟨loanAmountQ req, req.property_value.currency⟩ := by
  obtain ⟨hpv, hdp, _, _, hle, hcur⟩ := h
  unfold MortgageRequest.loan_amount loanAmountQ
  exact Money.sub_ok hcur hle hpv.2 hdp.2

theorem loanAmountQ_nonneg {req : MortgageRequest} (h : req.Valid) : 0 ≤ loanAmountQ req := by
  have := h.2.2.2.2.1
  unfold loanAmountQ
  linarith

theorem loanAmountQ_cents {req : MortgageRequest} (h : req.Valid) : Cents (loanAmountQ req) :=
  cents_sub h.1.2 h.2.1.2

theorem monthlyPaymentValue_pos {P r : ℚ} {n : ℤ} (hP : 0 < P) (hr : 0 ≤ r) (hn : 1 ≤ n) :
    0 < monthlyPaymentValue P r n := by
  unfold monthlyPaymentValue
  split
  · exact div_pos hP (by exact_mod_cast (by linarith : (0 : ℤ) < n))
  · rename_i hr0
    have hrpos : 0 < r := lt_of_le_of_ne hr (Ne.symm hr0)
    have hN : n.toNat ≠ 0 := by omega
    have hQN : 1 < (1 + r) ^ n.toNat := one_lt_pow₀ (by linarith) hN
    exact mul_pos hP (div_pos (mul_pos hrpos (by linarith)) (by linarith))

theorem calculate_monthly_payment_eq_make {req : MortgageRequest} (h : req.Valid)
    (hP : 0 < loanAmountQ req) :
    calculate_monthly_payment req =
      Money.make (monthlyPaymentValue (loanAmountQ req) req.interest_rate.monthly_rate
        req.loan_term.months) req.property_value.currency := by
  unfold calculate_monthly_payment
  rw [loan_amount_ok h, bind_ok_eq]
  dsimp only
  rw [if_neg (not_le.mpr hP)]
  rfl

theorem calculate_monthly_payment_ok {req : MortgageRequest} (h : req.Valid)
    (hP : 0 < loanAmountQ req) :
    calculate_monthly_payment req = .ok ⟨monthlyPaymentQ req, req.property_value.currency⟩ := by
  rw [calculate_monthly_payment_eq_make h hP]
  have hpos : 0 < monthlyPaymentValue (loanAmountQ req) req.interest_rate.monthly_rate
      req.loan_term.months :=
    monthlyPaymentValue_pos hP (by
      have h1 := h.2.2.2.1.1
      unfold InterestRate.monthly_rate
      positivity) (by
      have h2 := h.2.2.1.1
      unfold LoanTerm.months
      omega)
  rw [Money.make_ok (not_lt.mpr (le_of_lt hpos))]
  rfl

theorem calculate_monthly_payment_error {req : MortgageRequest} (h : req.Valid)
    (hP : loanAmountQ req ≤ 0) :
    calculate_monthly_payment req = .error "Loan amount must be positive" := by
  unfold calculate_monthly_payment
  rw [loan_amount_ok h, bind_ok_eq]
  dsimp only
  rw [if_pos hP]

theorem calculate_total_interest_eq_make {req : MortgageRequest} (h : req.Valid)
    (hP : 0 < loanAmountQ req) :
    calculate_total_interest req =
      Money.make (monthlyPaymentQ req * ((req.loan_term.months : ℤ) : ℚ) - loanAmountQ req)
        req.property_value.currency := by
  unfold calculate_total_interest
  rw [calculate_monthly_payment_ok h hP, bind_ok_eq, loan_amount_ok h, bind_ok_eq]

theorem remainingBalanceValue_nonneg {P r : ℚ} {n k : ℤ} (hP : 0 ≤ P) :
    0 ≤ remainingBalanceValue P r n k := by
  unfold remainingBalanceValue
  split_ifs with h1 h2 h3
  · exact hP
  · exact le_refl 0
  · exact le_sup_left
  · exact le_sup_left

theorem balanceQ_nonneg {req : MortgageRequest} (h : req.Valid) (k : ℤ) :
    0 ≤ balanceQ req k :=
  roundHalfUp2_nonneg (remainingBalanceValue_nonneg (loanAmountQ_nonneg h))

theorem balanceQ_cents (req : MortgageRequest) (k : ℤ) : Cents (balanceQ req k) :=
  cents_roundHalfUp2 _

theorem monthlyPaymentQ_cents (req : MortgageRequest) : Cents (monthlyPaymentQ req) :=
  cents_roundHalfUp2 _

theorem calculate_remaining_balance_ok {req : MortgageRequest} (h : req.Valid) (k : ℤ)
    (hc : 0 < loanAmountQ req ∨ req.interest_rate.monthly_rate = 0 ∨ k ≤ 0 ∨
      req.loan_term.months ≤ k) :
    calculate_remaining_balance req k = .ok ⟨balanceQ req k, req.property_value.currency⟩ := by
  by_cases hk : k ≤ 0
  · unfold calculate_remaining_balance
    rw [if_pos hk, loan_amount_ok h]
    unfold balanceQ remainingBalanceValue
    rw [if_pos hk, roundHalfUp2_eq_self (loanAmountQ_cents h)]
  · by_cases hn : req.loan_term.months ≤ k
    · unfold calculate_remaining_balance
      rw [if_neg hk, if_pos hn, loan_amount_ok h, bind_ok_eq]
      dsimp only
      rw [Money.make_ok (by norm_num)]
      unfold balanceQ remainingBalanceValue
      rw [if_neg hk, if_pos hn]
    · by_cases hr : req.interest_rate.monthly_rate = 0
      · unfold calculate_remaining_balance
        rw [if_neg hk, if_neg hn, loan_amount_ok h, bind_ok_eq]
        dsimp only
        rw [if_pos hr, pure_eq_ok, bind_ok_eq]
        rw [Money.make_ok (not_lt.mpr le_sup_left)]
        unfold balanceQ remainingBalanceValue
        rw [if_neg hk, if_neg hn, if_pos hr]
      · have hP : 0 < loanAmountQ req := by
          rcases hc with hx | hx | hx | hx
          · exact hx
          · exact absurd hx hr
          · exact absurd hx hk
          · exact absurd hx hn
        unfold calculate_remaining_balance
        rw [if_neg hk, if_neg hn, loan_amount_ok h, bind_ok_eq]
        dsimp only
        rw [if_neg hr, calculate_monthly_payment_ok h hP, bind_ok_eq]
        rw [pure_eq_ok, bind_ok_eq]
        rw [Money.make_ok (not_lt.mpr le_sup_left)]
        unfold balanceQ remainingBalanceValue
        rw [if_neg hk, if_neg hn, if_neg hr]

theorem MonthlyPayment.mkPayment_ok {t p i : Money} {m : ℤ} {rb : Money}
    (hm : ¬m ≤ 0) (hcur : p.currency = i.currency)
    (hp : 0 ≤ p.amount) (hi : 0 ≤ i.amount) (hcp : Cents p.amount) (hci : Cents i.amount)
    (htol : ¬1 / 100 < |p.amount + i.amount - t.amount|) :
    MonthlyPayment.make t p i m rb = .ok ⟨t, p, i, m, rb⟩ := by
  unfold MonthlyPayment.make
  rw [if_neg hm, Money.add_ok hcur hp hi hcp hci, bind_ok_eq]
  dsimp only
  rw [if_neg htol]

theorem MonthlyPayment.mkPayment_ok_inv {t p i : Money} {m : ℤ} {rb : Money} {q : MonthlyPayment}
    (h : MonthlyPayment.make t p i m rb = .ok q) : q = ⟨t, p, i, m, rb⟩ ∧ ¬m ≤ 0 := by
  unfold MonthlyPayment.make at h
  split at h
  · exact Except.noConfusion h
  · rename_i hm0
    obtain ⟨ct, _, h2⟩ := bind_ok_inv h
    split at h2
    · exact Except.noConfusion h2
    · injection h2 with h3
      exact ⟨h3.symm, hm0⟩

theorem Money.sub_ok_valid {a b m : Money} (h : a.sub b = .ok m) : m.Valid := by
  unfold Money.sub at h
  split at h
  · exact Money.make_ok_valid h
  · exact Except.noConfusion h

theorem loan_amount_ok_valid {req : MortgageRequest} {m : Money}
    (h : req.loan_amount = .ok m) : m.Valid :=
  Money.sub_ok_valid h

theorem calculate_monthly_payment_ok_valid {req : MortgageRequest} {m : Money}
    (h : calculate_monthly_payment req = .ok m) : m.Valid := by
  unfold calculate_monthly_payment at h
  obtain ⟨la, _, h2⟩ := bind_ok_inv h
  simp only [] at h2
  split at h2
  · exact Except.noConfusion h2
  · exact Money.make_ok_valid h2

/-- Any `MonthlyPayment` actually returned by `calculate_monthly_breakdown`
carries its requested month number and only valid (non-negative,
cent-quantized) `Money` components. -/
theorem calculate_monthly_breakdown_ok_inv {req : MortgageRequest} {month : ℤ}
    {q : MonthlyPayment} (h : calculate_monthly_breakdown req month = .ok q) :
    q.month_number = month ∧ 1 ≤ month ∧ q.total_payment.Valid ∧
      q.principal_amount.Valid ∧ q.interest_amount.Valid ∧ q.remaining_balance.Valid := by
  unfold calculate_monthly_breakdown at h
  split at h
  · exact Except.noConfusion h
  · obtain ⟨pay, hpay, h⟩ := bind_ok_inv h
    obtain ⟨bal, hbal, h⟩ := bind_ok_inv h
    obtain ⟨la, hla, h⟩ := bind_ok_inv h
    obtain ⟨intr, hintr, h⟩ := bind_ok_inv h
    obtain ⟨prin, hprin, h⟩ := bind_ok_inv h
    obtain ⟨rem, hrem, h⟩ := bind_ok_inv h
    obtain ⟨rfl, hm⟩ := MonthlyPayment.mkPayment_ok_inv h
    refine ⟨rfl, by omega, calculate_monthly_payment_ok_valid hpay, ?_, ?_, ?_⟩
    · exact Money.sub_ok_valid hprin
    · exact Money.make_ok_valid hintr
    · exact Money.sub_ok_valid hrem

theorem Money.sub_ok_mk (x y : ℚ) (c : String) (hle : y ≤ x) (hcx : Cents x)
    (hcy : Cents y) : (Money.mk x c).sub ⟨y, c⟩ = .ok ⟨x - y, c⟩ :=
  Money.sub_ok rfl hle hcx hcy

theorem Money.sub_error_mk (x y : ℚ) (c : String) (hlt : x < y) :
    (Money.mk x c).sub ⟨y, c⟩ = .error "Money amount cannot be negative" :=
  Money.sub_error rfl hlt

theorem MonthlyPayment.mkPayment_ok_lit (tq pq iq : ℚ) (c : String) (m : ℤ) (rb : Money)
    (hm : ¬m ≤ 0) (hp : 0 ≤ pq) (hi : 0 ≤ iq) (hcp : Cents pq) (hci : Cents iq)
    (htol : ¬1 / 100 < |pq + iq - tq|) :
    MonthlyPayment.make ⟨tq, c⟩ ⟨pq, c⟩ ⟨iq, c⟩ m rb = .ok ⟨⟨tq, c⟩, ⟨pq, c⟩, ⟨iq, c⟩, m, rb⟩ :=
  MonthlyPayment.mkPayment_ok hm rfl hp hi hcp hci htol

/-- The rounded interest charged in a given month. -/
def interestQ (req : MortgageRequest) (month : ℤ) : ℚ :=
  roundHalfUp2 (balanceQ req (month - 1) * req.interest_rate.monthly_rate)

/-- Full characterization of `calculate_monthly_breakdown` on an in-range
month of a valid request with positive loan amount: it succeeds with the
rounded payment/interest/principal/balance values unless one of the two
`Money` subtractions goes negative, in which case it fails with the
negative-amount error. -/
theorem calculate_monthly_breakdown_char {req : MortgageRequest} (h : req.Valid) {month : ℤ}
    (h1 : 1 ≤ month) (h2 : month ≤ req.loan_term.months) (hP : 0 < loanAmountQ req) :
    (interestQ req month ≤ monthlyPaymentQ req →
      monthlyPaymentQ req - interestQ req month ≤ balanceQ req (month - 1) →
      calculate_monthly_breakdown req month = .ok
        ⟨⟨monthlyPaymentQ req, req.property_value.currency⟩,
         ⟨monthlyPaymentQ req - interestQ req month, req.property_value.currency⟩,
         ⟨interestQ req month, req.property_value.currency⟩, month,
         ⟨balanceQ req (month - 1) - (monthlyPaymentQ req - interestQ req month),
          req.property_value.currency⟩⟩) ∧
    (monthlyPaymentQ req < interestQ req month →
      calculate_monthly_breakdown req month = .error "Money amount cannot be negative") ∧
    (interestQ req month ≤ monthlyPaymentQ req →
      balanceQ req (month - 1) < monthlyPaymentQ req - interestQ req month →
      calculate_monthly_breakdown req month = .error "Money amount cannot be negative") := by
  have hr0 : 0 ≤ req.interest_rate.monthly_rate := by
    have hx := h.2.2.2.1.1
    unfold InterestRate.monthly_rate
    positivity
  have hbal0 : 0 ≤ balanceQ req (month - 1) := balanceQ_nonneg h _
  have hint0 : 0 ≤ interestQ req month :=
    roundHalfUp2_nonneg (mul_nonneg hbal0 hr0)
  have hmain : calculate_monthly_breakdown req month =
      ((Money.mk (monthlyPaymentQ req) req.property_value.currency).sub
          ⟨interestQ req month, req.property_value.currency⟩ >>= fun principal_amount =>
        (Money.mk (balanceQ req (month - 1)) req.property_value.currency).sub
            principal_amount >>= fun new_remaining_balance =>
        MonthlyPayment.make ⟨monthlyPaymentQ req, req.property_value.currency⟩
          principal_amount ⟨interestQ req month, req.property_value.currency⟩ month
          new_remaining_balance) := by
    unfold calculate_monthly_breakdown
    rw [if_neg (by push_neg; exact ⟨by omega, by omega⟩)]
    rw [calculate_monthly_payment_ok h hP, bind_ok_eq]
    rw [calculate_remaining_balance_ok h (month - 1) (Or.inl hP), bind_ok_eq]
    dsimp only
    rw [loan_amount_ok h, bind_ok_eq]
    dsimp only
    rw [Money.make_ok (not_lt.mpr (mul_nonneg hbal0 hr0)), bind_ok_eq]
    rfl
  refine ⟨?_, ?_, ?_⟩
  · intro hle1 hle2
    rw [hmain]
    rw [Money.sub_ok_mk (monthlyPaymentQ req) (interestQ req month)
      req.property_value.currency hle1 (monthlyPaymentQ_cents req) (cents_roundHalfUp2 _),
      bind_ok_eq]
    rw [Money.sub_ok_mk (balanceQ req (month - 1)) (monthlyPaymentQ req - interestQ req month)
      req.property_value.currency hle2 (balanceQ_cents req _)
      (cents_sub (monthlyPaymentQ_cents req) (cents_roundHalfUp2 _)), bind_ok_eq]
    rw [MonthlyPayment.mkPayment_ok_lit (monthlyPaymentQ req)
      (monthlyPaymentQ req - interestQ req month) (interestQ req month)
      req.property_value.currency month
      ⟨balanceQ req (month - 1) - (monthlyPaymentQ req - interestQ req month),
        req.property_value.currency⟩
      (by omega) (by linarith) hint0
      (cents_sub (monthlyPaymentQ_cents req) (cents_roundHalfUp2 _)) (cents_roundHalfUp2 _)
      (by rw [show monthlyPaymentQ req - interestQ req month + interestQ req month -
        monthlyPaymentQ req = 0 by ring]; norm_num)]
  · intro hlt
    rw [hmain]
    rw [Money.sub_error_mk (monthlyPaymentQ req) (interestQ req month)
      req.property_value.currency hlt, bind_error_eq]
  · intro hle1 hlt2
    rw [hmain]
    rw [Money.sub_ok_mk (monthlyPaymentQ req) (interestQ req month)
      req.property_value.currency hle1 (monthlyPaymentQ_cents req) (cents_roundHalfUp2 _),
      bind_ok_eq]
    rw [Money.sub_error_mk (balanceQ req (month - 1))
      (monthlyPaymentQ req - interestQ req month) req.property_value.currency hlt2,
      bind_error_eq]

/-! ### Monotonicity of the annuity payment in the interest rate -/

/-- Per-unit annuity payment factor; `monthlyPaymentValue P r n` equals
`P * annuityFactor r n.toNat` when `n > 0`. -/
def annuityFactor (r : ℚ) (m : ℕ) : ℚ :=
  if r = 0 then (m : ℚ)⁻¹ else r * (1 + r) ^ m / ((1 + r) ^ m - 1)

/-- Present value of `m` discounted unit payments, the reciprocal of the
annuity factor. -/
def pvSum (r : ℚ) (m : ℕ) : ℚ := ∑ k ∈ Finset.range m, ((1 + r) ^ (k + 1))⁻¹

theorem pvSum_pos {r : ℚ} (hr : 0 ≤ r) {m : ℕ} (hm : m ≠ 0) : 0 < pvSum r m := by
  unfold pvSum
  apply Finset.sum_pos
  · intro k _
    have h1 : (0 : ℚ) < 1 + r := by linarith
    positivity
  · exact Finset.nonempty_range_iff.mpr hm

theorem pvSum_mul {r : ℚ} (hr : 0 < r) (m : ℕ) :
    pvSum r m * (r * (1 + r) ^ m) = (1 + r) ^ m - 1 := by
  have hQ0 : (0 : ℚ) < 1 + r := by linarith
  have hQne : (1 + r : ℚ) ≠ 0 := ne_of_gt hQ0
  unfold pvSum
  rw [Finset.sum_mul]
  have hterm : ∀ k ∈ Finset.range m, ((1 + r) ^ (k + 1))⁻¹ * (r * (1 + r) ^ m)
      = r * (1 + r) ^ (m - 1 - k) := by
    intro k hk
    have hk2 : k + 1 ≤ m := Finset.mem_range.mp hk
    rw [show m - 1 - k = m - (k + 1) from by omega]
    rw [pow_sub₀ (1 + r) hQne hk2]
    have hpow : ((1 + r) ^ (k + 1) : ℚ) ≠ 0 := pow_ne_zero _ hQne
    field_simp
  rw [Finset.sum_congr rfl hterm, ← Finset.mul_sum]
  rw [Finset.sum_range_reflect (fun j => (1 + r) ^ j) m]
  have hg := geom_sum_mul (1 + r : ℚ) m
  rw [show (1 + r - 1 : ℚ) = r from by ring] at hg
  rw [mul_comm]
  exact hg

theorem annuityFactor_eq_inv_pvSum {r : ℚ} (hr : 0 ≤ r) {m : ℕ} (hm : m ≠ 0) :
    annuityFactor r m = (pvSum r m)⁻¹ := by
  unfold annuityFactor
  split
  · rename_i h0
    have hs : pvSum r m = (m : ℚ) := by
      unfold pvSum
      rw [h0]
      simp
    rw [hs]
  · rename_i h0
    have hrpos : 0 < r := lt_of_le_of_ne hr (Ne.symm h0)
    have hmul := pvSum_mul hrpos m
    have hQ : 1 < ((1 + r) ^ m : ℚ) := one_lt_pow₀ (by linarith) hm
    have hden : ((1 + r) ^ m - 1 : ℚ) ≠ 0 := ne_of_gt (by linarith)
    have hS : pvSum r m ≠ 0 := ne_of_gt (pvSum_pos hr hm)
    rw [div_eq_iff hden, ← hmul, inv_mul_cancel_left₀ hS]

theorem pvSum_strict_anti {r1 r2 : ℚ} (h0 : 0 ≤ r1) (h12 : r1 < r2) {m : ℕ} (hm : m ≠ 0) :
    pvSum r2 m < pvSum r1 m := by
  unfold pvSum
  apply Finset.sum_lt_sum_of_nonempty (Finset.nonempty_range_iff.mpr hm)
  intro k _
  have h1 : (0 : ℚ) < (1 + r1) ^ (k + 1) := by
    have : (0 : ℚ) < 1 + r1 := by linarith
    positivity
  have h2 : ((1 + r1) ^ (k + 1) : ℚ) < (1 + r2) ^ (k + 1) :=
    pow_lt_pow_left₀ (by linarith) (by linarith) (Nat.succ_ne_zero k)
  exact inv_strictAnti₀ h1 h2

theorem annuityFactor_lt {r1 r2 : ℚ} (h0 : 0 ≤ r1) (h12 : r1 < r2) {m : ℕ} (hm : m ≠ 0) :
    annuityFactor r1 m < annuityFactor r2 m := by
  rw [annuityFactor_eq_inv_pvSum h0 hm, annuityFactor_eq_inv_pvSum (by linarith) hm]
  exact inv_strictAnti₀ (pvSum_pos (by linarith) hm) (pvSum_strict_anti h0 h12 hm)

theorem monthlyPaymentValue_eq_factor (P r : ℚ) {n : ℤ} (hn : 0 < n) :
    monthlyPaymentValue P r n = P * annuityFactor r n.toNat := by
  unfold monthlyPaymentValue annuityFactor
  split_ifs with h
  · rw [div_eq_mul_inv]
    have h2 : ((n.toNat : ℕ) : ℚ) = ((n : ℤ) : ℚ) := by
      exact_mod_cast congrArg (fun z : ℤ => (z : ℚ)) (Int.toNat_of_nonneg hn.le)
    rw [h2]
  · rfl

theorem monthlyPaymentValue_lt {P : ℚ} (hP : 0 < P) {r1 r2 : ℚ} (h0 : 0 ≤ r1)
    (h12 : r1 < r2) {n : ℤ} (hn : 0 < n) :
    monthlyPaymentValue P r1 n < monthlyPaymentValue P r2 n := by
  rw [monthlyPaymentValue_eq_factor P r1 hn, monthlyPaymentValue_eq_factor P r2 hn]
  have hm : n.toNat ≠ 0 := by omega
  exact mul_lt_mul_of_pos_left (annuityFactor_lt h0 h12 hm) hP

/-! ### The schedule loop -/

def isOkE {ε α : Type} : Except ε α → Bool
  | .ok _ => true
  | .error _ => false

theorem isOkE_iff {ε α : Type} {x : Except ε α} : isOkE x = true ↔ ∃ a, x = .ok a := by
  cases x <;> simp [isOkE]

theorem scheduleMonths_length (total : ℤ) : (scheduleMonths total).length = total.toNat := by
  unfold scheduleMonths
  rw [List.length_map, List.length_range]

theorem scheduleMonths_get (total : ℤ) (i : ℕ) (h : i < (scheduleMonths total).length) :
    (scheduleMonths total).get ⟨i, h⟩ = (i : ℤ) + 1 := by
  unfold scheduleMonths at h ⊢
  simp

/-- A successful schedule loop returns one breakdown per requested month,
in order, each equal to the independently computed single-month breakdown. -/
theorem scheduleLoop_ok_char (req : MortgageRequest) (ms : List ℤ) :
    ∀ l : List MonthlyPayment, scheduleLoop req ms = .ok l →
      l.length = ms.length ∧ ∀ i (h1 : i < ms.length) (h2 : i < l.length),
        calculate_monthly_breakdown req (ms.get ⟨i, h1⟩) = .ok (l.get ⟨i, h2⟩) := by
  induction ms with
  | nil =>
    intro l h
    injection h with h2
    subst h2
    exact ⟨rfl, fun i h1 _ => absurd h1 (Nat.not_lt_zero i)⟩
  | cons m ms ih =>
    intro l h
    simp only [scheduleLoop] at h
    obtain ⟨p, hp, h⟩ := bind_ok_inv h
    obtain ⟨rest, hrest, h⟩ := bind_ok_inv h
    injection h with h2
    subst h2
    obtain ⟨ihlen, ihget⟩ := ih rest hrest
    refine ⟨by simp [ihlen], ?_⟩
    intro i h1 h2
    cases i with
    | zero => exact hp
    | succ j =>
      simp only [List.get_cons_succ]
      exact ihget j (by simpa using h1) (by simpa using h2)

/-- If every month before `m` succeeds and month `m` fails, the loop fails
with month `m`'s error (matching the sequential Python loop). -/
theorem scheduleLoop_error (req : MortgageRequest) (e : String) (m : ℤ) (ms2 : List ℤ) :
    ∀ ms1 : List ℤ, (∀ x ∈ ms1, isOkE (calculate_monthly_breakdown req x) = true) →
      calculate_monthly_breakdown req m = .error e →
      scheduleLoop req (ms1 ++ m :: ms2) = .error e := by
  intro ms1
  induction ms1 with
  | nil =>
    intro _ herr
    simp only [List.nil_append, scheduleLoop]
    rw [herr, bind_error_eq]
  | cons x xs ih =>
    intro hok herr
    obtain ⟨p, hp⟩ := isOkE_iff.mp (hok x (List.mem_cons_self x xs))
    simp only [List.cons_append, scheduleLoop, List.append_eq]
    rw [hp, bind_ok_eq, ih (fun y hy => hok y (List.mem_cons_of_mem x hy)) herr, bind_error_eq]

/-- `calculate_remaining_balance` only ever returns a valid `Money`. -/
theorem calculate_remaining_balance_ok_valid {req : MortgageRequest} {k : ℤ} {m : Money}
    (h : calculate_remaining_balance req k = .ok m) : m.Valid := by
  unfold calculate_remaining_balance at h
  split at h
  · exact loan_amount_ok_valid h
  · split at h
    · obtain ⟨la, _, h2⟩ := bind_ok_inv h
      exact Money.make_ok_valid h2
    · obtain ⟨la, _, h2⟩ := bind_ok_inv h
      simp only [] at h2
      split at h2
      · rw [pure_eq_ok, bind_ok_eq] at h2
        exact Money.make_ok_valid h2
      · obtain ⟨mp, _, h3⟩ := bind_ok_inv h2
        rw [pure_eq_ok, bind_ok_eq] at h3
        exact Money.make_ok_valid h3

/-- `loan_to_value_ratio` on a valid request returns the LTV percentage. -/
theorem loan_to_value_ratio_ok {req : MortgageRequest} (h : req.Valid) :
    req.loan_to_value_ratio = .ok (ltvValue req) := by
  unfold MortgageRequest.loan_to_value_ratio ltvValue
  by_cases hz : req.property_value.amount = 0
  · rw [if_pos hz, if_pos hz]
  · rw [if_neg hz, if_neg hz, loan_amount_ok h, bind_ok_eq]

theorem roundHalfUp2_ten_thousand : roundHalfUp2 (10000 : ℚ) = 10000 := by
  have h := roundHalfUp2_int_div 1000000
  norm_num at h
  exact h

/-! ### Concrete inputs used by the claims -/

/-- Spec end-to-end scenario 1: 300000 property, 60000 down, 30 years, 3.5%. -/
def scenario1 : MortgageRequest := ⟨⟨300000, "EUR"⟩, ⟨60000, "EUR"⟩, ⟨30⟩, ⟨7 / 2⟩⟩

/-- Spec end-to-end scenario 2: 200000 property, 40000 down, 20 years, 0%. -/
def scenario2 : MortgageRequest := ⟨⟨200000, "EUR"⟩, ⟨40000, "EUR"⟩, ⟨20⟩, ⟨0⟩⟩

/-- A business-valid request (loan 15000, 1 year, 5.9%) whose final-month
breakdown fails. -/
def reqC2 : MortgageRequest := ⟨⟨35000, "EUR"⟩, ⟨20000, "EUR"⟩, ⟨1⟩, ⟨59 / 10⟩⟩

/-- A valid zero-rate request (loan 100000, 25 years) whose total interest
computes negative. -/
def reqC6 : MortgageRequest := ⟨⟨110000, "EUR"⟩, ⟨10000, "EUR"⟩, ⟨25⟩, ⟨0⟩⟩

/-- Loan 120000 over 1 year at 5%. -/
def reqC7a : MortgageRequest := ⟨⟨140000, "EUR"⟩, ⟨20000, "EUR"⟩, ⟨1⟩, ⟨5⟩⟩

/-- Same as `reqC7a` with a slightly larger rate (5.0000001%). -/
def reqC7b : MortgageRequest :=
  ⟨⟨140000, "EUR"⟩, ⟨20000, "EUR"⟩, ⟨1⟩, ⟨50000001 / 10000000⟩⟩

/-- A constructible request with zero loan amount (property = down payment). -/
def reqZero : MortgageRequest := ⟨⟨100000, "EUR"⟩, ⟨100000, "EUR"⟩, ⟨1⟩, ⟨5⟩⟩

/-- Loan 120000 over 1 year at 0%: every month pays exactly 10000. -/
def reqC4 : MortgageRequest := ⟨⟨130000, "EUR"⟩, ⟨10000, "EUR"⟩, ⟨1⟩, ⟨0⟩⟩

theorem scenario1_valid : scenario1.Valid := by with_unfolding_all decide

theorem scenario1_payment : calculate_monthly_payment scenario1 = .ok ⟨107771 / 100, "EUR"⟩ := by
  have hP : 0 < loanAmountQ scenario1 := by norm_num [loanAmountQ, scenario1]
  rw [calculate_monthly_payment_ok scenario1_valid hP]
  have hval : monthlyPaymentQ scenario1 = 107771 / 100 := by
    have e1 : loanAmountQ scenario1 = 240000 := by norm_num [loanAmountQ, scenario1]
    have e2 : scenario1.interest_rate.monthly_rate = 7 / 2400 := by
      norm_num [scenario1, InterestRate.monthly_rate]
    have e3 : scenario1.loan_term.months = 360 := by norm_num [scenario1, LoanTerm.months]
    unfold monthlyPaymentQ
    rw [e1, e2, e3]
    unfold monthlyPaymentValue
    rw [if_neg (by norm_num), show ((360 : ℤ).toNat) = 360 from rfl]
    rw [roundHalfUp2_eq_of 107771 (by norm_num) (by norm_num) (by norm_num)]
    norm_num
  rw [hval]
  rfl

theorem scenario2_valid : scenario2.Valid := by with_unfolding_all decide

theorem scenario2_paymentQ : monthlyPaymentQ scenario2 = 66667 / 100 := by
  have e1 : loanAmountQ scenario2 = 160000 := by norm_num [loanAmountQ, scenario2]
  have e2 : scenario2.interest_rate.monthly_rate = 0 := by
    norm_num [scenario2, InterestRate.monthly_rate]
  have e3 : scenario2.loan_term.months = 240 := by norm_num [scenario2, LoanTerm.months]
  unfold monthlyPaymentQ
  rw [e1, e2, e3]
  unfold monthlyPaymentValue
  rw [if_pos rfl]
  rw [roundHalfUp2_eq_of 66667 (by norm_num) (by norm_num) (by norm_num)]
  norm_num

theorem scenario2_payment : calculate_monthly_payment scenario2 = .ok ⟨66667 / 100, "EUR"⟩ := by
  have hP : 0 < loanAmountQ scenario2 := by norm_num [loanAmountQ, scenario2]
  rw [calculate_monthly_payment_ok scenario2_valid hP, scenario2_paymentQ]
  rfl

theorem scenario2_total_interest :
    calculate_total_interest scenario2 = .ok ⟨4 / 5, "EUR"⟩ := by
  have hP : 0 < loanAmountQ scenario2 := by norm_num [loanAmountQ, scenario2]
  have e1 : loanAmountQ scenario2 = 160000 := by norm_num [loanAmountQ, scenario2]
  have e3 : scenario2.loan_term.months = 240 := by norm_num [scenario2, LoanTerm.months]
  rw [calculate_total_interest_eq_make scenario2_valid hP, scenario2_paymentQ, e1, e3]
  rw [show (66667 / 100 * ((240 : ℤ) : ℚ) - 160000 : ℚ) = 4 / 5 from by norm_num]
  rw [Money.make_ok (by norm_num)]
  rw [roundHalfUp2_eq_of 80 (by norm_num) (by norm_num) (by norm_num)]
  norm_num
  rfl

theorem reqC6_valid : reqC6.Valid := by with_unfolding_all decide

theorem reqC6_paymentQ : monthlyPaymentQ reqC6 = 33333 / 100 := by
  have e1 : loanAmountQ reqC6 = 100000 := by norm_num [loanAmountQ, reqC6]
  have e2 : reqC6.interest_rate.monthly_rate = 0 := by
    norm_num [reqC6, InterestRate.monthly_rate]
  have e3 : reqC6.loan_term.months = 300 := by norm_num [reqC6, LoanTerm.months]
  unfold monthlyPaymentQ
  rw [e1, e2, e3]
  unfold monthlyPaymentValue
  rw [if_pos rfl]
  rw [roundHalfUp2_eq_of 33333 (by norm_num) (by norm_num) (by norm_num)]
  norm_num

/-- The zero-rate request `reqC6` crashes `calculate_total_interest`: the
rounded payment times 300 months is 99999.00, one unit below the loan
amount, so `Money` construction rejects the negative total interest. -/
theorem reqC6_total_interest_error :
    calculate_total_interest reqC6 = .error "Money amount cannot be negative" := by
  have hP : 0 < loanAmountQ reqC6 := by norm_num [loanAmountQ, reqC6]
  have e1 : loanAmountQ reqC6 = 100000 := by norm_num [loanAmountQ, reqC6]
  have e3 : reqC6.loan_term.months = 300 := by norm_num [reqC6, LoanTerm.months]
  rw [calculate_total_interest_eq_make reqC6_valid hP, reqC6_paymentQ, e1, e3]
  exact Money.make_error (by norm_num)

theorem reqC7a_valid : reqC7a.Valid := by with_unfolding_all decide

theorem reqC7b_valid : reqC7b.Valid := by with_unfolding_all decide

theorem reqC7a_paymentQ : monthlyPaymentQ reqC7a = 1027290 / 100 := by
  have e1 : loanAmountQ reqC7a = 120000 := by norm_num [loanAmountQ, reqC7a]
  have e2 : reqC7a.interest_rate.monthly_rate = 1 / 240 := by
    norm_num [reqC7a, InterestRate.monthly_rate]
  have e3 : reqC7a.loan_term.months = 12 := by norm_num [reqC7a, LoanTerm.months]
  unfold monthlyPaymentQ
  rw [e1, e2, e3]
  unfold monthlyPaymentValue
  rw [if_neg (by norm_num), show ((12 : ℤ).toNat) = 12 from rfl]
  rw [roundHalfUp2_eq_of 1027290 (by norm_num) (by norm_num) (by norm_num)]
  norm_num

theorem reqC7b_paymentQ : monthlyPaymentQ reqC7b = 1027290 / 100 := by
  have e1 : loanAmountQ reqC7b = 120000 := by norm_num [loanAmountQ, reqC7b]
  have e2 : reqC7b.interest_rate.monthly_rate = 50000001 / 12000000000 := by
    norm_num [reqC7b, InterestRate.monthly_rate]
  have e3 : reqC7b.loan_term.months = 12 := by norm_num [reqC7b, LoanTerm.months]
  unfold monthlyPaymentQ
  rw [e1, e2, e3]
  unfold monthlyPaymentValue
  rw [if_neg (by norm_num), show ((12 : ℤ).toNat) = 12 from rfl]
  rw [roundHalfUp2_eq_of 1027290 (by norm_num) (by norm_num) (by norm_num)]
  norm_num

theorem reqC7a_payment : calculate_monthly_payment reqC7a = .ok ⟨1027290 / 100, "EUR"⟩ := by
  have hP : 0 < loanAmountQ reqC7a := by norm_num [loanAmountQ, reqC7a]
  rw [calculate_monthly_payment_ok reqC7a_valid hP, reqC7a_paymentQ]
  rfl

theorem reqC7b_payment : calculate_monthly_payment reqC7b = .ok ⟨1027290 / 100, "EUR"⟩ := by
  have hP : 0 < loanAmountQ reqC7b := by norm_num [loanAmountQ, reqC7b]
  rw [calculate_monthly_payment_ok reqC7b_valid hP, reqC7b_paymentQ]
  rfl

theorem reqC7a_total_interest : calculate_total_interest reqC7a = .ok ⟨16374 / 5, "EUR"⟩ := by
  have hP : 0 < loanAmountQ reqC7a := by norm_num [loanAmountQ, reqC7a]
  have e1 : loanAmountQ reqC7a = 120000 := by norm_num [loanAmountQ, reqC7a]
  have e3 : reqC7a.loan_term.months = 12 := by norm_num [reqC7a, LoanTerm.months]
  rw [calculate_total_interest_eq_make reqC7a_valid hP, reqC7a_paymentQ, e1, e3]
  rw [show (1027290 / 100 * ((12 : ℤ) : ℚ) - 120000 : ℚ) = 16374 / 5 from by norm_num]
  rw [Money.make_ok (by norm_num)]
  rw [roundHalfUp2_eq_of 327480 (by norm_num) (by norm_num) (by norm_num)]
  norm_num
  rfl

theorem reqC7b_total_interest : calculate_total_interest reqC7b = .ok ⟨16374 / 5, "EUR"⟩ := by
  have hP : 0 < loanAmountQ reqC7b := by norm_num [loanAmountQ, reqC7b]
  have e1 : loanAmountQ reqC7b = 120000 := by norm_num [loanAmountQ, reqC7b]
  have e3 : reqC7b.loan_term.months = 12 := by norm_num [reqC7b, LoanTerm.months]
  rw [calculate_total_interest_eq_make reqC7b_valid hP, reqC7b_paymentQ, e1, e3]
  rw [show (1027290 / 100 * ((12 : ℤ) : ℚ) - 120000 : ℚ) = 16374 / 5 from by norm_num]
  rw [Money.make_ok (by norm_num)]
  rw [roundHalfUp2_eq_of 327480 (by norm_num) (by norm_num) (by norm_num)]
  norm_num
  rfl

theorem reqC2_valid : reqC2.Valid := by with_unfolding_all decide

theorem reqC2_validate : validate_mortgage_request reqC2 = .ok () := by
  with_unfolding_all decide

set_option maxRecDepth 40000 in
theorem reqC2_breakdown12 :
    calculate_monthly_breakdown reqC2 12 = .error "Money amount cannot be negative" := by
  with_unfolding_all decide

/-- The full 12-month schedule of `reqC2` aborts with the negative-amount
error raised while computing month 12. -/
theorem reqC2_schedule_error :
    calculate_amortization_schedule reqC2 none = .error "Money amount cannot be negative" := by
  have hms : scheduleMonths (scheduleTotal reqC2 none) =
      ([1, 2, 3, 4, 5, 6, 7, 8, 9, 10, 11] : List ℤ) ++ (12 : ℤ) :: ([] : List ℤ) := by
    with_unfolding_all decide
  unfold calculate_amortization_schedule
  rw [hms]
  refine scheduleLoop_error reqC2 _ 12 [] _ ?_ reqC2_breakdown12
  intro x hx
  fin_cases hx <;> with_unfolding_all decide

theorem reqZero_valid : reqZero.Valid := by with_unfolding_all decide

theorem reqZero_loanQ : loanAmountQ reqZero = 0 := by norm_num [loanAmountQ, reqZero]

theorem reqZero_balance3 :
    calculate_remaining_balance reqZero 3 = .error "Loan amount must be positive" := by
  unfold calculate_remaining_balance
  rw [if_neg (by norm_num), if_neg (by norm_num [reqZero, LoanTerm.months])]
  rw [loan_amount_ok reqZero_valid, bind_ok_eq]
  dsimp only
  rw [if_neg (by norm_num [reqZero, InterestRate.monthly_rate])]
  rw [calculate_monthly_payment_error reqZero_valid (le_of_eq reqZero_loanQ), bind_error_eq]

theorem reqZero_breakdown1 :
    calculate_monthly_breakdown reqZero 1 = .error "Loan amount must be positive" := by
  unfold calculate_monthly_breakdown
  rw [if_neg (by push_neg; constructor <;> norm_num [reqZero, LoanTerm.months])]
  rw [calculate_monthly_payment_error reqZero_valid (le_of_eq reqZero_loanQ), bind_error_eq]

theorem reqC4_valid : reqC4.Valid := by with_unfolding_all decide

theorem reqC4_loanQ : loanAmountQ reqC4 = 120000 := by norm_num [loanAmountQ, reqC4]

theorem reqC4_rate : reqC4.interest_rate.monthly_rate = 0 := by
  norm_num [reqC4, InterestRate.monthly_rate]

theorem reqC4_months : reqC4.loan_term.months = 12 := by norm_num [reqC4, LoanTerm.months]

theorem reqC4_paymentQ : monthlyPaymentQ reqC4 = 10000 := by
  unfold monthlyPaymentQ
  rw [reqC4_loanQ, reqC4_rate, reqC4_months]
  unfold monthlyPaymentValue
  rw [if_pos rfl]
  rw [roundHalfUp2_eq_of 1000000 (by norm_num) (by norm_num) (by norm_num)]
  norm_num

theorem reqC4_balanceQ (k : ℤ) (h0 : 0 ≤ k) (h12 : k < 12) :
    balanceQ reqC4 k = 120000 - 10000 * (k : ℚ) := by
  unfold balanceQ remainingBalanceValue
  rw [reqC4_loanQ, reqC4_rate, reqC4_months]
  by_cases hk : k ≤ 0
  · have hk0 : k = 0 := le_antisymm hk h0
    subst hk0
    rw [if_pos (le_refl (0 : ℤ))]
    rw [roundHalfUp2_eq_self ((cents_iff _).mpr ⟨12000000, by norm_num⟩)]
    norm_num
  · rw [if_neg hk, if_neg (by omega), if_pos rfl]
    have hkq : (0 : ℚ) ≤ 120000 - 10000 * (k : ℚ) := by
      have : (k : ℚ) ≤ 11 := by exact_mod_cast (by omega : k ≤ 11)
      linarith
    rw [show (120000 - 120000 / ((12 : ℤ) : ℚ) * (k : ℚ) : ℚ) = 120000 - 10000 * (k : ℚ)
      from by norm_num]
    rw [sup_eq_right.mpr hkq]
    refine roundHalfUp2_eq_self ((cents_iff _).mpr ⟨12000000 - 1000000 * k, ?_⟩)
    push_cast
    ring

theorem reqC4_interestQ (m : ℤ) : interestQ reqC4 m = 0 := by
  unfold interestQ
  rw [reqC4_rate, mul_zero]
  have h := roundHalfUp2_int_div 0
  norm_num at h
  exact h

theorem reqC4_breakdown (m : ℤ) (h1 : 1 ≤ m) (h2 : m ≤ 12) :
    calculate_monthly_breakdown reqC4 m =
      .ok ⟨⟨10000, "EUR"⟩, ⟨10000, "EUR"⟩, ⟨0, "EUR"⟩, m,
        ⟨120000 - 10000 * (m : ℚ), "EUR"⟩⟩ := by
  have hbal : balanceQ reqC4 (m - 1) = 120000 - 10000 * ((m - 1 : ℤ) : ℚ) :=
    reqC4_balanceQ (m - 1) (by omega) (by omega)
  have hcast : ((m - 1 : ℤ) : ℚ) = (m : ℚ) - 1 := by push_cast; ring
  have hmain := (calculate_monthly_breakdown_char reqC4_valid h1
    (by rw [reqC4_months]; exact h2) (by rw [reqC4_loanQ]; norm_num)).1
  rw [reqC4_interestQ, reqC4_paymentQ, hbal, hcast] at hmain
  have hmq : (0 : ℚ) ≤ (m : ℚ) ∧ (m : ℚ) ≤ 12 := by
    constructor <;> exact_mod_cast (by omega : _)
  rw [hmain (by norm_num) (by nlinarith [hmq.1, hmq.2])]
  simp only [reqC4, Except.ok.injEq, MonthlyPayment.mk.injEq, Money.mk.injEq]
  norm_num
  ring

theorem reqC4_loop (ms : List ℤ) (hms : ∀ x ∈ ms, 1 ≤ x ∧ x ≤ 12) :
    scheduleLoop reqC4 ms = .ok (ms.map (fun m =>
      ⟨⟨10000, "EUR"⟩, ⟨10000, "EUR"⟩, ⟨0, "EUR"⟩, m,
        ⟨120000 - 10000 * (m : ℚ), "EUR"⟩⟩)) := by
  induction ms with
  | nil => rfl
  | cons x xs ih =>
    have hx := hms x (List.mem_cons_self x xs)
    simp only [scheduleLoop, List.map]
    rw [reqC4_breakdown x hx.1 hx.2, bind_ok_eq,
      ih (fun y hy => hms y (List.mem_cons_of_mem x hy)), bind_ok_eq]

theorem reqC4_schedule0 : calculate_amortization_schedule reqC4 (some 0) =
    .ok (([1, 2, 3, 4, 5, 6, 7, 8, 9, 10, 11, 12] : List ℤ).map (fun m =>
      ⟨⟨10000, "EUR"⟩, ⟨10000, "EUR"⟩, ⟨0, "EUR"⟩, m,
        ⟨120000 - 10000 * (m : ℚ), "EUR"⟩⟩)) := by
  have hms : scheduleMonths (scheduleTotal reqC4 (some 0)) =
      ([1, 2, 3, 4, 5, 6, 7, 8, 9, 10, 11, 12] : List ℤ) := by
    with_unfolding_all decide
  unfold calculate_amortization_schedule
  rw [hms]
  exact reqC4_loop _ (by decide)

theorem reqC4_schedule0_len :
    (calculate_amortization_schedule reqC4 (some 0)).toOption.map List.length = some 12 := by
  rw [reqC4_schedule0]
  rfl

theorem reqC4_breakdown1 : calculate_monthly_breakdown reqC4 1 =
    .ok ⟨⟨10000, "EUR"⟩, ⟨10000, "EUR"⟩, ⟨0, "EUR"⟩, 1, ⟨110000, "EUR"⟩⟩ := by
  rw [reqC4_breakdown 1 (by norm_num) (by norm_num)]
  norm_num

/-- The first two entries of `reqC4`'s schedule. -/
def reqC4sched2 : List MonthlyPayment :=
  [⟨⟨10000, "EUR"⟩, ⟨10000, "EUR"⟩, ⟨0, "EUR"⟩, 1, ⟨110000, "EUR"⟩⟩,
   ⟨⟨10000, "EUR"⟩, ⟨10000, "EUR"⟩, ⟨0, "EUR"⟩, 2, ⟨100000, "EUR"⟩⟩]

theorem reqC4_sched2 : calculate_amortization_schedule reqC4 (some 2) = .ok reqC4sched2 := by
  have hms : scheduleMonths (scheduleTotal reqC4 (some 2)) = ([1, 2] : List ℤ) := by
    with_unfolding_all decide
  unfold calculate_amortization_schedule
  rw [hms, reqC4_loop [1, 2] (by decide)]
  unfold reqC4sched2
  norm_num

/-! ### The claims -/

/-- C1: for every mortgage request whose loan amount is positive,
`calculate_monthly_payment` returns, as `Money` in the loan's currency
rounded to 2 decimals, `principal / num_months` when the monthly rate is 0
and otherwise `principal * [r(1+r)^n] / [(1+r)^n - 1]`; it fails with a
domain error whenever the loan amount is zero or negative.  In particular,
scenario 1 (300000/60000/30y/3.5%) yields 1077.71 EUR. -/
theorem claim_C1 :
    (∀ req : MortgageRequest, req.Valid → ∀ la : Money, req.loan_amount = .ok la →
      (0 < la.amount → calculate_monthly_payment req =
        .ok ⟨roundHalfUp2 (monthlyPaymentValue la.amount req.interest_rate.monthly_rate
          req.loan_term.months), la.currency⟩) ∧
      (la.amount ≤ 0 →
        calculate_monthly_payment req = .error "Loan amount must be positive")) ∧
    calculate_monthly_payment scenario1 = .ok ⟨107771 / 100, "EUR"⟩ := by
  constructor
  · intro req hv la hla
    have hla2 := loan_amount_ok hv
    rw [hla] at hla2
    injection hla2 with h2
    subst h2
    constructor
    · intro hP
      exact calculate_monthly_payment_ok hv hP
    · intro hP
      exact calculate_monthly_payment_error hv hP
  · exact scenario1_payment

theorem reqC7a_loan : reqC7a.loan_amount = .ok ⟨120000, "EUR"⟩ := by
  have h := loan_amount_ok reqC7a_valid
  rw [show (⟨loanAmountQ reqC7a, reqC7a.property_value.currency⟩ : Money) =
    ⟨120000, "EUR"⟩ from by unfold loanAmountQ reqC7a; norm_num] at h
  exact h

/-- Witness for C1 at a concrete request: loan 120000 over 1 year at 5%. -/
theorem claim_C1_witness :
    reqC7a.Valid ∧ reqC7a.loan_amount = .ok ⟨120000, "EUR"⟩ ∧
    calculate_monthly_payment reqC7a =
      .ok ⟨roundHalfUp2 (monthlyPaymentValue 120000 reqC7a.interest_rate.monthly_rate
        reqC7a.loan_term.months), "EUR"⟩ :=
  ⟨reqC7a_valid, reqC7a_loan,
    (claim_C1.1 reqC7a reqC7a_valid ⟨120000, "EUR"⟩ reqC7a_loan).1 (by norm_num)⟩

/-- C2 (code bug): the spec's amortization-conservation property cannot hold
because the code cannot even produce a full schedule: for the business-valid
request `reqC2` (loan 15000, 1 year, 5.9%), the final month's rounded
principal exceeds the remaining balance by one cent, `Money` construction
raises, and `calculate_amortization_schedule` over the full term aborts with
"Money amount cannot be negative" instead of returning a schedule. -/
theorem claim_C2 :
    validate_mortgage_request reqC2 = .ok () ∧
    reqC2.loan_term.months = 12 ∧
    calculate_monthly_breakdown reqC2 12 = .error "Money amount cannot be negative" ∧
    calculate_amortization_schedule reqC2 none = .error "Money amount cannot be negative" :=
  ⟨reqC2_validate, rfl, reqC2_breakdown12, reqC2_schedule_error⟩

/-- C10: `Money` construction checks the sign of the raw amount before
rounding, so any amount in (-0.005, 0) is rejected even though round-half-up
quantization would produce 0.00. -/
theorem claim_C10 : ∀ (q : ℚ) (c : String), -(1 / 200) < q → q < 0 →
    Money.make q c = .error "Money amount cannot be negative" ∧ roundHalfUp2 q = 0 := by
  intro q c h1 h2
  refine ⟨Money.make_error h2, ?_⟩
  unfold roundHalfUp2
  rw [if_pos h2]
  have hfl : ⌊-q * 100 + 1 / 2⌋ = 0 := by
    rw [Int.floor_eq_zero_iff]
    exact Set.mem_Ico.mpr ⟨by linarith, by linarith⟩
  rw [hfl]
  norm_num

/-- Witness for C10 at the raw amount -0.001. -/
theorem claim_C10_witness :
    -(1 / 200) < (-1 / 1000 : ℚ) ∧ (-1 / 1000 : ℚ) < 0 ∧
    Money.make (-1 / 1000 : ℚ) "EUR" = .error "Money amount cannot be negative" ∧
    roundHalfUp2 (-1 / 1000 : ℚ) = 0 := by
  refine ⟨by norm_num, by norm_num, ?_, ?_⟩
  · exact (claim_C10 (-1 / 1000) "EUR" (by norm_num) (by norm_num)).1
  · exact (claim_C10 (-1 / 1000) "EUR" (by norm_num) (by norm_num)).2

/-- C3 counterexample: the claim promises a value for every request and
every `months_paid`, but for a constructible request with zero loan amount,
a nonzero rate and `0 < months_paid < total months`, the nonzero-rate branch
first computes the monthly payment, which raises. -/
theorem claim_C3_counterexample :
    reqZero.Valid ∧ (0 : ℤ) < 3 ∧ (3 : ℤ) < reqZero.loan_term.months ∧
    reqZero.interest_rate.monthly_rate ≠ 0 ∧
    calculate_remaining_balance reqZero 3 = .error "Loan amount must be positive" :=
  ⟨reqZero_valid, by norm_num, by norm_num [reqZero, LoanTerm.months],
    by norm_num [reqZero, InterestRate.monthly_rate], reqZero_balance3⟩

/-- C3 (amended): `_calculate_remaining_balance` returns the full loan
amount when `months_paid ≤ 0`, zero when `months_paid ≥ total months`,
`round2(max(0, P - (P/n)k))` for a zero monthly rate, and
`round2(max(0, P * ((1+r)^n - (1+r)^k) / ((1+r)^n - 1)))` otherwise —
except that the nonzero-rate middle branch additionally requires a positive
loan amount (it computes the monthly payment, which fails otherwise); every
returned amount is clamped to be ≥ 0. -/
theorem claim_C3 : ∀ req : MortgageRequest, req.Valid → ∀ la : Money,
    req.loan_amount = .ok la → ∀ k : ℤ,
    (k ≤ 0 → calculate_remaining_balance req k = .ok la) ∧
    (req.loan_term.months ≤ k →
      calculate_remaining_balance req k = .ok ⟨0, la.currency⟩) ∧
    (0 < k → k < req.loan_term.months → req.interest_rate.monthly_rate = 0 →
      calculate_remaining_balance req k = .ok
        ⟨roundHalfUp2 (max 0 (la.amount - la.amount / ((req.loan_term.months : ℤ) : ℚ) *
          ((k : ℤ) : ℚ))), la.currency⟩) ∧
    (0 < k → k < req.loan_term.months → req.interest_rate.monthly_rate ≠ 0 →
      0 < la.amount →
      calculate_remaining_balance req k = .ok
        ⟨roundHalfUp2 (max 0 (la.amount *
          (((1 + req.interest_rate.monthly_rate) ^ req.loan_term.months.toNat -
            (1 + req.interest_rate.monthly_rate) ^ k.toNat) /
           ((1 + req.interest_rate.monthly_rate) ^ req.loan_term.months.toNat - 1)))),
         la.currency⟩) ∧
    (∀ b : Money, calculate_remaining_balance req k = .ok b → 0 ≤ b.amount) := by
  intro req hv la hla k
  have hm12 : 12 ≤ req.loan_term.months := by
    have hy := hv.2.2.1.1
    unfold LoanTerm.months
    omega
  have hla2 := loan_amount_ok hv
  rw [hla] at hla2
  injection hla2 with h2
  subst h2
  refine ⟨?_, ?_, ?_, ?_, fun b hb => (calculate_remaining_balance_ok_valid hb).1⟩
  · intro hk
    rw [calculate_remaining_balance_ok hv k (Or.inr (Or.inr (Or.inl hk)))]
    unfold balanceQ remainingBalanceValue
    rw [if_pos hk, roundHalfUp2_eq_self (loanAmountQ_cents hv)]
  · intro hk
    rw [calculate_remaining_balance_ok hv k (Or.inr (Or.inr (Or.inr hk)))]
    unfold balanceQ remainingBalanceValue
    rw [if_neg (by omega : ¬k ≤ 0), if_pos hk]
    have h0 : roundHalfUp2 (0 : ℚ) = 0 := by
      have h := roundHalfUp2_int_div 0
      norm_num at h
      exact h
    rw [h0]
  · intro hk1 hk2 hr
    rw [calculate_remaining_balance_ok hv k (Or.inr (Or.inl hr))]
    unfold balanceQ remainingBalanceValue
    rw [if_neg (by omega : ¬k ≤ 0), if_neg (by omega : ¬req.loan_term.months ≤ k), if_pos hr]
  · intro hk1 hk2 hr hP
    rw [calculate_remaining_balance_ok hv k (Or.inl hP)]
    unfold balanceQ remainingBalanceValue
    rw [if_neg (by omega : ¬k ≤ 0), if_neg (by omega : ¬req.loan_term.months ≤ k), if_neg hr]

/-- Witness for C3 at `reqC4` (loan 120000, 1 year, 0%) and `months_paid = 3`. -/
theorem claim_C3_witness :
    reqC4.Valid ∧ reqC4.loan_amount = .ok ⟨120000, "EUR"⟩ ∧
    calculate_remaining_balance reqC4 3 = .ok
      ⟨roundHalfUp2 (max 0 ((120000 : ℚ) - 120000 / ((reqC4.loan_term.months : ℤ) : ℚ) *
        ((3 : ℤ) : ℚ))), "EUR"⟩ := by
  have hla : reqC4.loan_amount = .ok ⟨120000, "EUR"⟩ := by
    have h := loan_amount_ok reqC4_valid
    rw [show (⟨loanAmountQ reqC4, reqC4.property_value.currency⟩ : Money) =
      ⟨120000, "EUR"⟩ from by unfold loanAmountQ reqC4; norm_num] at h
    exact h
  exact ⟨reqC4_valid, hla,
    (claim_C3 reqC4 reqC4_valid ⟨120000, "EUR"⟩ hla 3).2.2.1 (by norm_num)
      (by norm_num [reqC4, LoanTerm.months]) reqC4_rate⟩

/-- C4 counterexample: with `max_months = 0` supplied, Python's falsy check
skips the `min`, and the 12-month request returns 12 entries, not
`min(12, 0) = 0`. -/
theorem claim_C4_counterexample :
    (calculate_amortization_schedule reqC4 (some 0)).toOption.map List.length = some 12 ∧
    min reqC4.loan_term.months 0 = 0 :=
  ⟨reqC4_schedule0_len, by norm_num [reqC4, LoanTerm.months]⟩

/-- C4 (amended): when it succeeds, `calculate_amortization_schedule`
returns exactly `total_months` entries where `total_months` is the loan
term capped by `min` only for a supplied nonzero `max_months` (a supplied
`0` is falsy in Python and yields the full term); entries carry month
numbers 1..k in order and each equals the independently computed
single-month breakdown — no sequencing state is carried between months. -/
theorem claim_C4 : ∀ (req : MortgageRequest) (mm : Option ℤ) (l : List MonthlyPayment),
    calculate_amortization_schedule req mm = .ok l →
    l.length = (scheduleTotal req mm).toNat ∧
    (mm = none → scheduleTotal req mm = req.loan_term.months) ∧
    (mm = some 0 → scheduleTotal req mm = req.loan_term.months) ∧
    (∀ m : ℤ, mm = some m → m ≠ 0 →
      scheduleTotal req mm = min req.loan_term.months m) ∧
    ∀ i (h2 : i < l.length),
      calculate_monthly_breakdown req ((i : ℤ) + 1) = .ok (l.get ⟨i, h2⟩) ∧
      (l.get ⟨i, h2⟩).month_number = (i : ℤ) + 1 := by
  intro req mm l h
  unfold calculate_amortization_schedule at h
  obtain ⟨hlen, hget⟩ := scheduleLoop_ok_char req _ l h
  rw [scheduleMonths_length] at hlen
  refine ⟨hlen, ?_, ?_, ?_, ?_⟩
  · rintro rfl
    rfl
  · rintro rfl
    rfl
  · rintro m rfl hm
    simp only [scheduleTotal]
    rw [if_neg hm]
  · intro i h2
    have h1 : i < (scheduleMonths (scheduleTotal req mm)).length := by
      rw [scheduleMonths_length]
      omega
    have hg := hget i h1 h2
    rw [scheduleMonths_get _ i h1] at hg
    exact ⟨hg, (calculate_monthly_breakdown_ok_inv hg).1⟩

/-- Witness for C4: the 2-month capped schedule of `reqC4`. -/
theorem claim_C4_witness :
    calculate_amortization_schedule reqC4 (some 2) = .ok reqC4sched2 ∧
    reqC4sched2.length = (scheduleTotal reqC4 (some 2)).toNat ∧
    scheduleTotal reqC4 (some 2) = min reqC4.loan_term.months 2 :=
  ⟨reqC4_sched2, (claim_C4 reqC4 (some 2) reqC4sched2 reqC4_sched2).1,
    (claim_C4 reqC4 (some 2) reqC4sched2 reqC4_sched2).2.2.2.1 2 rfl (by norm_num)⟩

/-- C5 counterexample: a constructible request with zero loan amount makes
`calculate_monthly_breakdown` fail on an in-range month (the monthly-payment
positivity check fires), refuting the claimed "if and only if". -/
theorem claim_C5_counterexample :
    reqZero.Valid ∧ (1 : ℤ) ≤ 1 ∧ (1 : ℤ) ≤ reqZero.loan_term.months ∧
    calculate_monthly_breakdown reqZero 1 = .error "Loan amount must be positive" :=
  ⟨reqZero_valid, le_refl 1, by norm_num [reqZero, LoanTerm.months], reqZero_breakdown1⟩

/-- C5 (amended): `calculate_monthly_breakdown` fails with the month-range
validation error iff the month is out of range; for an in-range month it
additionally fails when the loan amount is nonpositive (positivity check of
the payment) or when a rounded intermediate goes negative — the month's
rounded interest exceeding the rounded payment, or the rounded principal
exceeding the month's starting balance (as happens in final months);
otherwise it returns a `MonthlyPayment` for that month. -/
theorem claim_C5 : ∀ req : MortgageRequest, req.Valid → ∀ month : ℤ,
    ((month < 1 ∨ req.loan_term.months < month) →
      calculate_monthly_breakdown req month =
        .error "Month must be between 1 and the loan term months") ∧
    (1 ≤ month → month ≤ req.loan_term.months →
      (loanAmountQ req ≤ 0 →
        calculate_monthly_breakdown req month = .error "Loan amount must be positive") ∧
      (0 < loanAmountQ req →
        (interestQ req month ≤ monthlyPaymentQ req →
          monthlyPaymentQ req - interestQ req month ≤ balanceQ req (month - 1) →
          ∃ p : MonthlyPayment, calculate_monthly_breakdown req month = .ok p ∧
            p.month_number = month) ∧
        ((monthlyPaymentQ req < interestQ req month ∨
          balanceQ req (month - 1) < monthlyPaymentQ req - interestQ req month) →
          calculate_monthly_breakdown req month =
            .error "Money amount cannot be negative"))) := by
  intro req hv month
  constructor
  · intro hcond
    unfold calculate_monthly_breakdown
    rw [if_pos hcond]
  · intro h1 h2
    constructor
    · intro hP
      unfold calculate_monthly_breakdown
      rw [if_neg (by push_neg; omega)]
      rw [calculate_monthly_payment_error hv hP, bind_error_eq]
    · intro hP
      have hchar := calculate_monthly_breakdown_char hv h1 h2 hP
      constructor
      · intro hle1 hle2
        exact ⟨_, hchar.1 hle1 hle2, rfl⟩
      · intro hbad
        rcases hbad with hlt | hlt2
        · exact hchar.2.1 hlt
        · by_cases hle1 : interestQ req month ≤ monthlyPaymentQ req
          · exact hchar.2.2 hle1 hlt2
          · exact hchar.2.1 (not_le.mp hle1)

theorem reqC7a_balanceQ0 : balanceQ reqC7a 0 = 120000 := by
  unfold balanceQ remainingBalanceValue
  rw [if_pos (le_refl (0 : ℤ))]
  rw [show loanAmountQ reqC7a = 120000 from by norm_num [loanAmountQ, reqC7a]]
  rw [roundHalfUp2_eq_of 12000000 (by norm_num) (by norm_num) (by norm_num)]
  norm_num

theorem reqC7a_interestQ1 : interestQ reqC7a 1 = 500 := by
  unfold interestQ
  rw [show (1 : ℤ) - 1 = 0 from rfl, reqC7a_balanceQ0]
  rw [show reqC7a.interest_rate.monthly_rate = 1 / 240 from by
    norm_num [reqC7a, InterestRate.monthly_rate]]
  rw [show (120000 : ℚ) * (1 / 240) = 500 from by norm_num]
  rw [roundHalfUp2_eq_of 50000 (by norm_num) (by norm_num) (by norm_num)]
  norm_num

/-- Witness for C5: month 13 of a 12-month loan is rejected with the
month-range error, and month 1 succeeds. -/
theorem claim_C5_witness :
    reqC7a.Valid ∧
    calculate_monthly_breakdown reqC7a 13 =
      .error "Month must be between 1 and the loan term months" ∧
    ∃ p : MonthlyPayment, calculate_monthly_breakdown reqC7a 1 = .ok p ∧
      p.month_number = 1 := by
  refine ⟨reqC7a_valid, ?_, ?_⟩
  · exact (claim_C5 reqC7a reqC7a_valid 13).1
      (Or.inr (by norm_num [reqC7a, LoanTerm.months]))
  · refine ((claim_C5 reqC7a reqC7a_valid 1).2 (le_refl 1)
      (by norm_num [reqC7a, LoanTerm.months])).2
      (by norm_num [loanAmountQ, reqC7a]) |>.1 ?_ ?_
    · rw [reqC7a_interestQ1, reqC7a_paymentQ]
      norm_num
    · rw [reqC7a_interestQ1, reqC7a_paymentQ, show (1 : ℤ) - 1 = 0 from rfl,
        reqC7a_balanceQ0]
      norm_num

/-- C6 counterexample: for the valid zero-rate request `reqC6` (loan
100000 over 25 years) the rounded payment times 300 months is 99999.00,
so `calculate_total_interest` raises the negative-amount error instead of
returning a value near 0. -/
theorem claim_C6_counterexample :
    reqC6.Valid ∧ reqC6.interest_rate.annual_percentage = 0 ∧
    calculate_total_interest reqC6 = .error "Money amount cannot be negative" :=
  ⟨reqC6_valid, rfl, reqC6_total_interest_error⟩

/-- C6 (amended): for every valid zero-rate request with positive loan, the
monthly payment is exactly `round2(P/n)`; `calculate_total_interest`, when
it returns, returns `round2(round2(P/n)·n - P)`, which is nonnegative and
within half a cent per month (plus half a cent) of 0 — but for some such
requests the computed total interest is negative and the call fails with a
negative-amount error instead.  Scenario 2 returns exactly 666.67 EUR and
total interest 0.80. -/
theorem claim_C6 :
    (∀ req : MortgageRequest, req.Valid → req.interest_rate.annual_percentage = 0 →
      ∀ la : Money, req.loan_amount = .ok la → 0 < la.amount →
      calculate_monthly_payment req =
        .ok ⟨roundHalfUp2 (la.amount / ((req.loan_term.months : ℤ) : ℚ)), la.currency⟩ ∧
      (∀ ti : Money, calculate_total_interest req = .ok ti →
        ti.amount = roundHalfUp2 (roundHalfUp2 (la.amount / ((req.loan_term.months : ℤ) : ℚ)) *
          ((req.loan_term.months : ℤ) : ℚ) - la.amount) ∧
        0 ≤ ti.amount ∧
        ti.amount ≤ ((req.loan_term.months : ℤ) : ℚ) / 200 + 1 / 200)) ∧
    calculate_monthly_payment scenario2 = .ok ⟨66667 / 100, "EUR"⟩ ∧
    calculate_total_interest scenario2 = .ok ⟨4 / 5, "EUR"⟩ := by
  refine ⟨?_, scenario2_payment, scenario2_total_interest⟩
  intro req hv hrate la hla hP
  have hr0 : req.interest_rate.monthly_rate = 0 := by
    unfold InterestRate.monthly_rate
    rw [hrate]
    norm_num
  have hla2 := loan_amount_ok hv
  rw [hla] at hla2
  injection hla2 with h2
  subst h2
  have hpq : monthlyPaymentQ req =
      roundHalfUp2 (loanAmountQ req / ((req.loan_term.months : ℤ) : ℚ)) := by
    unfold monthlyPaymentQ monthlyPaymentValue
    rw [hr0, if_pos rfl]
  have hmon : (12 : ℚ) ≤ ((req.loan_term.months : ℤ) : ℚ) := by
    have hy := hv.2.2.1.1
    have : (12 : ℤ) ≤ req.loan_term.months := by unfold LoanTerm.months; omega
    exact_mod_cast this
  constructor
  · rw [calculate_monthly_payment_ok hv hP, hpq]
  · intro ti hti
    rw [calculate_total_interest_eq_make hv hP] at hti
    obtain ⟨hx, rfl⟩ := Money.make_ok_inv hti
    have hnn : (0 : ℚ) < ((req.loan_term.months : ℤ) : ℚ) := by linarith
    have hb1 := roundHalfUp2_le (loanAmountQ req / ((req.loan_term.months : ℤ) : ℚ))
    have h3 : roundHalfUp2 (loanAmountQ req / ((req.loan_term.months : ℤ) : ℚ)) *
        ((req.loan_term.months : ℤ) : ℚ) ≤
        (loanAmountQ req / ((req.loan_term.months : ℤ) : ℚ) + 1 / 200) *
          ((req.loan_term.months : ℤ) : ℚ) :=
      mul_le_mul_of_nonneg_right hb1 hnn.le
    have h4 : (loanAmountQ req / ((req.loan_term.months : ℤ) : ℚ) + 1 / 200) *
        ((req.loan_term.months : ℤ) : ℚ) =
        loanAmountQ req + ((req.loan_term.months : ℤ) : ℚ) / 200 := by
      field_simp
      ring
    have hb3 := roundHalfUp2_le (monthlyPaymentQ req * ((req.loan_term.months : ℤ) : ℚ) -
      loanAmountQ req)
    rw [hpq] at hx hb3 ⊢
    refine ⟨rfl, roundHalfUp2_nonneg hx, by linarith⟩

/-- Witness for C6 at scenario 2 (160000 loan, 240 months, 0%). -/
theorem claim_C6_witness :
    scenario2.Valid ∧ scenario2.interest_rate.annual_percentage = 0 ∧
    scenario2.loan_amount = .ok ⟨160000, "EUR"⟩ ∧
    calculate_monthly_payment scenario2 =
      .ok ⟨roundHalfUp2 ((160000 : ℚ) / ((scenario2.loan_term.months : ℤ) : ℚ)), "EUR"⟩ := by
  have hla : scenario2.loan_amount = .ok ⟨160000, "EUR"⟩ := by
    have h := loan_amount_ok scenario2_valid
    rw [show (⟨loanAmountQ scenario2, scenario2.property_value.currency⟩ : Money) =
      ⟨160000, "EUR"⟩ from by unfold loanAmountQ scenario2; norm_num] at h
    exact h
  exact ⟨scenario2_valid, rfl, hla,
    (claim_C6.1 scenario2 scenario2_valid rfl ⟨160000, "EUR"⟩ hla (by norm_num)).1⟩

/-- C7 counterexample: two valid requests identical except for annual rates
5 and 5.0000001 (both > 0) produce identical rounded monthly payments and
identical total interest, refuting the claimed strict increase. -/
theorem claim_C7_counterexample :
    reqC7a.property_value = reqC7b.property_value ∧
    reqC7a.down_payment = reqC7b.down_payment ∧
    reqC7a.loan_term = reqC7b.loan_term ∧
    reqC7a.interest_rate.annual_percentage < reqC7b.interest_rate.annual_percentage ∧
    0 < reqC7a.interest_rate.annual_percentage ∧
    calculate_monthly_payment reqC7a = .ok ⟨1027290 / 100, "EUR"⟩ ∧
    calculate_monthly_payment reqC7b = .ok ⟨1027290 / 100, "EUR"⟩ ∧
    calculate_total_interest reqC7a = .ok ⟨16374 / 5, "EUR"⟩ ∧
    calculate_total_interest reqC7b = .ok ⟨16374 / 5, "EUR"⟩ :=
  ⟨rfl, rfl, rfl, by norm_num [reqC7a, reqC7b], by norm_num [reqC7a],
    reqC7a_payment, reqC7b_payment, reqC7a_total_interest, reqC7b_total_interest⟩

/-- C7 (amended): increasing the interest rate (other inputs fixed, positive
loan) strictly increases the exact (pre-rounding) monthly payment; the
returned 2-decimal-rounded monthly payment and total interest are
nondecreasing, and can be equal for nearby rates. -/
theorem claim_C7 : ∀ (pv dp : Money) (lt : LoanTerm) (r1 r2 : InterestRate),
    (MortgageRequest.mk pv dp lt r1).Valid → (MortgageRequest.mk pv dp lt r2).Valid →
    r1.annual_percentage < r2.annual_percentage →
    0 < loanAmountQ (MortgageRequest.mk pv dp lt r1) →
    monthlyPaymentValue (loanAmountQ (MortgageRequest.mk pv dp lt r1))
        r1.monthly_rate lt.months <
      monthlyPaymentValue (loanAmountQ (MortgageRequest.mk pv dp lt r1))
        r2.monthly_rate lt.months ∧
    (∀ m1 m2 : Money,
      calculate_monthly_payment (MortgageRequest.mk pv dp lt r1) = .ok m1 →
      calculate_monthly_payment (MortgageRequest.mk pv dp lt r2) = .ok m2 →
      m1.amount ≤ m2.amount) ∧
    (∀ t1 t2 : Money,
      calculate_total_interest (MortgageRequest.mk pv dp lt r1) = .ok t1 →
      calculate_total_interest (MortgageRequest.mk pv dp lt r2) = .ok t2 →
      t1.amount ≤ t2.amount) := by
  intro pv dp lt r1 r2 hv1 hv2 hlt hP
  have hr1 : 0 ≤ r1.monthly_rate := by
    have h : 0 ≤ r1.annual_percentage := hv1.2.2.2.1.1
    unfold InterestRate.monthly_rate
    positivity
  have hrlt : r1.monthly_rate < r2.monthly_rate := by
    unfold InterestRate.monthly_rate
    linarith
  have hn : 0 < lt.months := by
    have h : 1 ≤ lt.years := hv1.2.2.1.1
    unfold LoanTerm.months
    omega
  have hval := monthlyPaymentValue_lt hP hr1 hrlt hn
  have hpayle : monthlyPaymentQ (MortgageRequest.mk pv dp lt r1) ≤
      monthlyPaymentQ (MortgageRequest.mk pv dp lt r2) := roundHalfUp2_mono hval.le
  refine ⟨hval, ?_, ?_⟩
  · intro m1 m2 hm1 hm2
    rw [calculate_monthly_payment_ok hv1 hP] at hm1
    rw [calculate_monthly_payment_ok hv2 hP] at hm2
    injection hm1 with e1
    injection hm2 with e2
    rw [← e1, ← e2]
    exact hpayle
  · intro t1 t2 ht1 ht2
    rw [calculate_total_interest_eq_make hv1 hP] at ht1
    rw [calculate_total_interest_eq_make hv2 hP] at ht2
    obtain ⟨hx1, rfl⟩ := Money.make_ok_inv ht1
    obtain ⟨hx2, rfl⟩ := Money.make_ok_inv ht2
    apply roundHalfUp2_mono
    have e1 : (MortgageRequest.mk pv dp lt r1).loan_term.months = lt.months := rfl
    have e2 : (MortgageRequest.mk pv dp lt r2).loan_term.months = lt.months := rfl
    have ea : loanAmountQ (MortgageRequest.mk pv dp lt r2) =
        loanAmountQ (MortgageRequest.mk pv dp lt r1) := rfl
    rw [e1, e2, ea]
    have hnq : (0 : ℚ) ≤ ((lt.months : ℤ) : ℚ) := by exact_mod_cast hn.le
    have h := mul_le_mul_of_nonneg_right hpayle hnq
    linarith

/-- Loan 120000 over 1 year at 0%, used as the smaller-rate witness input. -/
def reqC7w1 : MortgageRequest := ⟨⟨130000, "EUR"⟩, ⟨10000, "EUR"⟩, ⟨1⟩, ⟨0⟩⟩

/-- Loan 120000 over 1 year at 5%, used as the larger-rate witness input. -/
def reqC7w2 : MortgageRequest := ⟨⟨130000, "EUR"⟩, ⟨10000, "EUR"⟩, ⟨1⟩, ⟨5⟩⟩

theorem reqC7w1_valid : reqC7w1.Valid := by with_unfolding_all decide

theorem reqC7w2_valid : reqC7w2.Valid := by with_unfolding_all decide

theorem reqC7w1_paymentQ : monthlyPaymentQ reqC7w1 = 10000 := by
  unfold monthlyPaymentQ
  rw [show loanAmountQ reqC7w1 = 120000 from by norm_num [loanAmountQ, reqC7w1],
    show reqC7w1.interest_rate.monthly_rate = 0 from by
      norm_num [reqC7w1, InterestRate.monthly_rate],
    show reqC7w1.loan_term.months = 12 from by norm_num [reqC7w1, LoanTerm.months]]
  unfold monthlyPaymentValue
  rw [if_pos rfl]
  rw [roundHalfUp2_eq_of 1000000 (by norm_num) (by norm_num) (by norm_num)]
  norm_num

theorem reqC7w1_payment : calculate_monthly_payment reqC7w1 = .ok ⟨10000, "EUR"⟩ := by
  have hP : 0 < loanAmountQ reqC7w1 := by norm_num [loanAmountQ, reqC7w1]
  rw [calculate_monthly_payment_ok reqC7w1_valid hP, reqC7w1_paymentQ]
  rfl

theorem reqC7w1_total_interest : calculate_total_interest reqC7w1 = .ok ⟨0, "EUR"⟩ := by
  have hP : 0 < loanAmountQ reqC7w1 := by norm_num [loanAmountQ, reqC7w1]
  rw [calculate_total_interest_eq_make reqC7w1_valid hP, reqC7w1_paymentQ,
    show loanAmountQ reqC7w1 = 120000 from by norm_num [loanAmountQ, reqC7w1],
    show reqC7w1.loan_term.months = 12 from by norm_num [reqC7w1, LoanTerm.months]]
  rw [show ((10000 : ℚ) * ((12 : ℤ) : ℚ) - 120000 : ℚ) = 0 from by norm_num]
  rw [Money.make_ok (by norm_num)]
  rw [show roundHalfUp2 (0 : ℚ) = 0 from by
    have h := roundHalfUp2_int_div 0
    norm_num at h
    exact h]
  rfl

theorem reqC7w2_paymentQ : monthlyPaymentQ reqC7w2 = 1027290 / 100 := by
  unfold monthlyPaymentQ
  rw [show loanAmountQ reqC7w2 = 120000 from by norm_num [loanAmountQ, reqC7w2],
    show reqC7w2.interest_rate.monthly_rate = 1 / 240 from by
      norm_num [reqC7w2, InterestRate.monthly_rate],
    show reqC7w2.loan_term.months = 12 from by norm_num [reqC7w2, LoanTerm.months]]
  unfold monthlyPaymentValue
  rw [if_neg (by norm_num), show ((12 : ℤ).toNat) = 12 from rfl]
  rw [roundHalfUp2_eq_of 1027290 (by norm_num) (by norm_num) (by norm_num)]
  norm_num

theorem reqC7w2_payment : calculate_monthly_payment reqC7w2 = .ok ⟨1027290 / 100, "EUR"⟩ := by
  have hP : 0 < loanAmountQ reqC7w2 := by norm_num [loanAmountQ, reqC7w2]
  rw [calculate_monthly_payment_ok reqC7w2_valid hP, reqC7w2_paymentQ]
  rfl

theorem reqC7w2_total_interest : calculate_total_interest reqC7w2 = .ok ⟨16374 / 5, "EUR"⟩ := by
  have hP : 0 < loanAmountQ reqC7w2 := by norm_num [loanAmountQ, reqC7w2]
  rw [calculate_total_interest_eq_make reqC7w2_valid hP, reqC7w2_paymentQ,
    show loanAmountQ reqC7w2 = 120000 from by norm_num [loanAmountQ, reqC7w2],
    show reqC7w2.loan_term.months = 12 from by norm_num [reqC7w2, LoanTerm.months]]
  rw [show (1027290 / 100 * ((12 : ℤ) : ℚ) - 120000 : ℚ) = 16374 / 5 from by norm_num]
  rw [Money.make_ok (by norm_num)]
  rw [roundHalfUp2_eq_of 327480 (by norm_num) (by norm_num) (by norm_num)]
  norm_num
  rfl

/-- Witness for C7 at rates 0% and 5% on a 120000 loan over 1 year. -/
theorem claim_C7_witness :
    reqC7w1.Valid ∧ reqC7w2.Valid ∧
    reqC7w1.interest_rate.annual_percentage < reqC7w2.interest_rate.annual_percentage ∧
    0 < loanAmountQ reqC7w1 ∧
    monthlyPaymentValue (loanAmountQ reqC7w1) reqC7w1.interest_rate.monthly_rate
        reqC7w1.loan_term.months <
      monthlyPaymentValue (loanAmountQ reqC7w1) reqC7w2.interest_rate.monthly_rate
        reqC7w1.loan_term.months ∧
    (Money.mk 10000 "EUR").amount ≤ (Money.mk (1027290 / 100) "EUR").amount ∧
    (Money.mk 0 "EUR").amount ≤ (Money.mk (16374 / 5) "EUR").amount := by
  have hP : 0 < loanAmountQ reqC7w1 := by norm_num [loanAmountQ, reqC7w1]
  have h := claim_C7 ⟨130000, "EUR"⟩ ⟨10000, "EUR"⟩ ⟨1⟩ ⟨0⟩ ⟨5⟩
    reqC7w1_valid reqC7w2_valid (by norm_num) hP
  exact ⟨reqC7w1_valid, reqC7w2_valid, by norm_num [reqC7w1, reqC7w2], hP, h.1,
    h.2.1 ⟨10000, "EUR"⟩ ⟨1027290 / 100, "EUR"⟩ reqC7w1_payment reqC7w2_payment,
    h.2.2 ⟨0, "EUR"⟩ ⟨16374 / 5, "EUR"⟩ reqC7w1_total_interest reqC7w2_total_interest⟩

/-- C8: for every valid mortgage request, `validate_mortgage_request` fails
with a domain error iff the loan amount is below 10000, or the
loan-to-value ratio exceeds 95, or the annual rate exceeds 20; when none of
these hold it returns without error (the request itself is an immutable
value and is not modified). -/
theorem claim_C8 : ∀ req : MortgageRequest, req.Valid → ∀ la : Money,
    req.loan_amount = .ok la →
    ((∃ e, validate_mortgage_request req = .error e) ↔
      (la.amount < 10000 ∨ 95 < ltvValue req ∨
        20 < req.interest_rate.annual_percentage)) ∧
    (¬(la.amount < 10000 ∨ 95 < ltvValue req ∨
        20 < req.interest_rate.annual_percentage) →
      validate_mortgage_request req = .ok ()) := by
  intro req hv la hla
  have hla2 := loan_amount_ok hv
  rw [hla] at hla2
  injection hla2 with h2
  subst h2
  have hmain : validate_mortgage_request req =
      (if loanAmountQ req < 10000 then
        (.error "Minimum loan amount is 10000" : Except String Unit)
       else if 95 < ltvValue req then .error "Loan-to-value ratio exceeds maximum"
       else if 20 < req.interest_rate.annual_percentage then
         .error "Interest rate seems unreasonably high"
       else .ok ()) := by
    unfold validate_mortgage_request
    rw [loan_amount_ok hv, bind_ok_eq]
    dsimp only
    rw [Money.make_ok (by norm_num : ¬(10000 : ℚ) < 0), bind_ok_eq]
    dsimp only
    rw [roundHalfUp2_ten_thousand, loan_to_value_ratio_ok hv]
    by_cases c1 : loanAmountQ req < 10000
    · rw [if_pos c1, if_pos c1]
    · rw [if_neg c1, if_neg c1, bind_ok_eq]
  constructor
  · constructor
    · rintro ⟨e, he⟩
      by_contra hnot
      push_neg at hnot
      obtain ⟨n1, n2, n3⟩ := hnot
      rw [hmain, if_neg (not_lt.mpr n1), if_neg (not_lt.mpr n2),
        if_neg (not_lt.mpr n3)] at he
      exact Except.noConfusion he
    · intro hdisj
      rw [hmain]
      by_cases c1 : loanAmountQ req < 10000
      · rw [if_pos c1]
        exact ⟨_, rfl⟩
      · rw [if_neg c1]
        by_cases c2 : 95 < ltvValue req
        · rw [if_pos c2]
          exact ⟨_, rfl⟩
        · rw [if_neg c2]
          have c3 : 20 < req.interest_rate.annual_percentage := by
            rcases hdisj with h | h | h
            · exact absurd h c1
            · exact absurd h c2
            · exact h
          rw [if_pos c3]
          exact ⟨_, rfl⟩
  · intro hnot
    push_neg at hnot
    obtain ⟨n1, n2, n3⟩ := hnot
    rw [hmain, if_neg (not_lt.mpr n1), if_neg (not_lt.mpr n2), if_neg (not_lt.mpr n3)]

/-- Witness for C8: `reqC7a` (loan 120000, LTV ~85.7%, rate 5%) passes
validation. -/
theorem claim_C8_witness :
    reqC7a.Valid ∧ reqC7a.loan_amount = .ok ⟨120000, "EUR"⟩ ∧
    validate_mortgage_request reqC7a = .ok () := by
  refine ⟨reqC7a_valid, reqC7a_loan, ?_⟩
  refine (claim_C8 reqC7a reqC7a_valid ⟨120000, "EUR"⟩ reqC7a_loan).2 ?_
  push_neg
  refine ⟨by norm_num, ?_, by norm_num [reqC7a]⟩
  rw [show ltvValue reqC7a = 600 / 7 from by
    unfold ltvValue
    rw [if_neg (by norm_num [reqC7a])]
    rw [show loanAmountQ reqC7a = 120000 from by norm_num [loanAmountQ, reqC7a]]
    norm_num [reqC7a]]
  norm_num

/-- C9: every `Money` a core operation returns is non-negative and
cent-quantized because `Money` subtraction raises rather than producing a
negative amount; consequently every `MonthlyPayment` actually returned by
`calculate_monthly_breakdown` has non-negative principal and remaining
balance (the operation errors instead of reporting a negative balance). -/
theorem claim_C9 :
    (∀ a b : Money, a.currency = b.currency → a.amount < b.amount →
      a.sub b = .error "Money amount cannot be negative") ∧
    (∀ (q : ℚ) (c : String) (m : Money), Money.make q c = .ok m →
      0 ≤ m.amount ∧ Cents m.amount) ∧
    (∀ (req : MortgageRequest) (month : ℤ) (p : MonthlyPayment),
      calculate_monthly_breakdown req month = .ok p →
      (0 ≤ p.total_payment.amount ∧ Cents p.total_payment.amount) ∧
      (0 ≤ p.principal_amount.amount ∧ Cents p.principal_amount.amount) ∧
      (0 ≤ p.interest_amount.amount ∧ Cents p.interest_amount.amount) ∧
      (0 ≤ p.remaining_balance.amount ∧ Cents p.remaining_balance.amount)) :=
  ⟨fun _ _ h1 h2 => Money.sub_error h1 h2,
   fun _ _ _ h => Money.make_ok_valid h,
   fun _ _ _ h => by
     obtain ⟨_, _, h3, h4, h5, h6⟩ := calculate_monthly_breakdown_ok_inv h
     exact ⟨h3, h4, h5, h6⟩⟩

/-- Witness for C9 at month 1 of `reqC4`. -/
theorem claim_C9_witness :
    calculate_monthly_breakdown reqC4 1 =
      .ok ⟨⟨10000, "EUR"⟩, ⟨10000, "EUR"⟩, ⟨0, "EUR"⟩, 1, ⟨110000, "EUR"⟩⟩ ∧
    (0 : ℚ) ≤ 10000 ∧ Cents (10000 : ℚ) ∧ (0 : ℚ) ≤ 110000 ∧ Cents (110000 : ℚ) :=
  ⟨reqC4_breakdown1,
   (claim_C9.2.2 reqC4 1 _ reqC4_breakdown1).2.1.1,
   (claim_C9.2.2 reqC4 1 _ reqC4_breakdown1).2.1.2,
   (claim_C9.2.2 reqC4 1 _ reqC4_breakdown1).2.2.2.1,
   (claim_C9.2.2 reqC4 1 _ reqC4_breakdown1).2.2.2.2⟩

end Mortgage
